import Mathlib

/-! my-mysql-operator: the MySQL reconciler

A shallow embedding of `internal/controller/mysql_controller.go` and of the
types of `api/v1alpha1/mysql_types.go` that it uses.

* Go structs are Lean structures with the Go field names; only the fields the
  controller reads or writes are kept.
* Go `map[string]string` values are association lists.
* The Kubernetes client (`r.Get`, `r.Create`, `r.Status().Update`) is an
  in-memory object store together with a table of injected call failures; every
  call issued is appended to a trace.  A call without an injected failure is
  answered by the store: a lookup finds the first object stored under the kind,
  namespace and name asked for or says NotFound, a create appends the object
  when its key is free and says AlreadyExists otherwise, a status update
  replaces the status of the stored resource.  What the server adds on a write
  (UID, resource version, encoding of the secret data) is left out.
* `controllerutil.SetControllerReference` and `resource.MustParse` are library
  code; the first is modelled after its source, the second takes the quantity
  parser as a parameter.
* A Go panic is an explicit outcome.  Logging and the context are left out.
-/

set_option autoImplicit false
set_option linter.dupNamespace false

namespace MySQLOperator

/-! ## API types (`api/v1alpha1/mysql_types.go`) -/

/-- MySQLSpec defines the desired state of MySQL. -/
structure MySQLSpec where
  Version : String
  StorageSize : String
  RootPassword : String
  deriving DecidableEq, Repr

/-- MySQLStatus defines the observed state of MySQL. -/
structure MySQLStatus where
  Phase : String
  Message : String
  Ready : Bool
  deriving DecidableEq, Repr

/-- An owner reference, as in `metav1.OwnerReference`. -/
structure OwnerReference where
  APIVersion : String
  Kind : String
  Name : String
  UID : String
  Controller : Option Bool
  BlockOwnerDeletion : Option Bool
  deriving DecidableEq, Repr

/-- The part of `metav1.ObjectMeta` the controller touches. -/
structure ObjectMeta where
  Name : String
  Namespace : String
  UID : String
  Labels : List (String × String)
  OwnerReferences : List OwnerReference
  deriving DecidableEq, Repr

/-- MySQL is the Schema for the mysqls API. -/
structure MySQL extends ObjectMeta where
  Spec : MySQLSpec
  Status : MySQLStatus
  deriving DecidableEq, Repr

/-! ## Kubernetes object types built by the controller -/

/-- A parsed `resource.Quantity`, kept as the value the parser returned. -/
structure Quantity where
  text : String
  deriving DecidableEq, Repr

/-- Secret, `corev1.Secret`. -/
structure Secret extends ObjectMeta where
  StringData : List (String × String)
  deriving DecidableEq, Repr

/-- Access modes of `corev1.PersistentVolumeAccessMode`. -/
inductive PersistentVolumeAccessMode where
  | ReadWriteOnce
  | ReadOnlyMany
  | ReadWriteMany
  | ReadWriteOncePod
  deriving DecidableEq, Repr

/-- Resource requests, `corev1.VolumeResourceRequirements`. -/
structure VolumeResourceRequirements where
  Requests : List (String × Quantity)
  deriving DecidableEq, Repr

/-- The `corev1.PersistentVolumeClaimSpec`. -/
structure PersistentVolumeClaimSpec where
  AccessModes : List PersistentVolumeAccessMode
  Resources : VolumeResourceRequirements
  deriving DecidableEq, Repr

/-- PersistentVolumeClaim, `corev1.PersistentVolumeClaim`. -/
structure PersistentVolumeClaim extends ObjectMeta where
  Spec : PersistentVolumeClaimSpec
  deriving DecidableEq, Repr

/-- Container port, `corev1.ContainerPort`. -/
structure ContainerPort where
  ContainerPort : Nat
  Name : String
  deriving DecidableEq, Repr

/-- Local object reference, `corev1.LocalObjectReference`. -/
structure LocalObjectReference where
  Name : String
  deriving DecidableEq, Repr

/-- Secret key selector, `corev1.SecretKeySelector`. -/
structure SecretKeySelector where
  LocalObjectReference : LocalObjectReference
  Key : String
  deriving DecidableEq, Repr

/-- Source of an environment value, `corev1.EnvVarSource`. -/
structure EnvVarSource where
  SecretKeyRef : Option SecretKeySelector
  deriving DecidableEq, Repr

/-- Environment variable, `corev1.EnvVar`; `Value` is the literal value. -/
structure EnvVar where
  Name : String
  Value : String
  ValueFrom : Option EnvVarSource
  deriving DecidableEq, Repr

/-- Volume mount, `corev1.VolumeMount`. -/
structure VolumeMount where
  Name : String
  MountPath : String
  deriving DecidableEq, Repr

/-- Container, `corev1.Container`. -/
structure Container where
  Name : String
  Image : String
  Ports : List ContainerPort
  Env : List EnvVar
  VolumeMounts : List VolumeMount
  deriving DecidableEq, Repr

/-- Claim reference of a volume, `corev1.PersistentVolumeClaimVolumeSource`. -/
structure PersistentVolumeClaimVolumeSource where
  ClaimName : String
  deriving DecidableEq, Repr

/-- Volume source, `corev1.VolumeSource`. -/
structure VolumeSource where
  PersistentVolumeClaim : Option PersistentVolumeClaimVolumeSource
  deriving DecidableEq, Repr

/-- Volume, `corev1.Volume`. -/
structure Volume where
  Name : String
  VolumeSource : VolumeSource
  deriving DecidableEq, Repr

/-- Pod spec, `corev1.PodSpec`. -/
structure PodSpec where
  Containers : List Container
  Volumes : List Volume
  deriving DecidableEq, Repr

/-- Pod template, `corev1.PodTemplateSpec`. -/
structure PodTemplateSpec where
  ObjectMeta : ObjectMeta
  Spec : PodSpec
  deriving DecidableEq, Repr

/-- Label selector, `metav1.LabelSelector`. -/
structure LabelSelector where
  MatchLabels : List (String × String)
  deriving DecidableEq, Repr

/-- Deployment spec, `appsv1.DeploymentSpec`; pointers are options. -/
structure DeploymentSpec where
  Replicas : Option Int
  Selector : Option LabelSelector
  Template : PodTemplateSpec
  deriving DecidableEq, Repr

/-- Deployment, `appsv1.Deployment`. -/
structure Deployment extends ObjectMeta where
  Spec : DeploymentSpec
  deriving DecidableEq, Repr

/-- Protocols of `corev1.Protocol`. -/
inductive Protocol where
  | ProtocolTCP
  | ProtocolUDP
  | ProtocolSCTP
  deriving DecidableEq, Repr

/-- Service types of `corev1.ServiceType`. -/
inductive ServiceType where
  | ServiceTypeClusterIP
  | ServiceTypeNodePort
  | ServiceTypeLoadBalancer
  | ServiceTypeExternalName
  deriving DecidableEq, Repr

/-- Service port, `corev1.ServicePort`. -/
structure ServicePort where
  Port : Nat
  Name : String
  Protocol : Protocol
  deriving DecidableEq, Repr

/-- Service spec, `corev1.ServiceSpec`; `Type_` is the Go field `Type`. -/
structure ServiceSpec where
  Selector : List (String × String)
  Ports : List ServicePort
  Type_ : ServiceType
  deriving DecidableEq, Repr

/-- Service, `corev1.Service`. -/
structure Service extends ObjectMeta where
  Spec : ServiceSpec
  deriving DecidableEq, Repr

/-- The zero `metav1.ObjectMeta` with the two fields the builders set. -/
def objectMeta (name ns : String) : ObjectMeta :=
  { Name := name, Namespace := ns, UID := "", Labels := [], OwnerReferences := [] }

/-! ## Panics and `resource.MustParse` -/

/-- Evaluation of a Go expression that either yields a value or panics. -/
inductive MayPanic (α : Type) where
  | value (a : α)
  | panics (msg : String)
  deriving DecidableEq, Repr

/-- The library call `resource.MustParse`: the value of `resource.ParseQuantity`,
and a panic where that returns an error.  The parser itself is a parameter. -/
def MustParse (ParseQuantity : String → Option Quantity) (str : String) : MayPanic Quantity :=
  match ParseQuantity str with
  | some q => .value q
  | none => .panics ("cannot parse quantity: " ++ str)

/-! ## Builders (`mysql_controller.go`, lines 131-265) -/

/-- sanitizeName: `strings.ReplaceAll(name, ".", "-")`. -/
def sanitizeName (name : String) : String :=
  ⟨name.data.map (fun c => if c = '.' then '-' else c)⟩

/-- secretForMySQL. -/
def secretForMySQL (m : MySQL) (sanitizedName : String) : Secret :=
  let password := m.Spec.RootPassword
  let password := if password = "" then "changeme" else password
  { toObjectMeta := objectMeta (sanitizedName ++ "-secret") m.Namespace
    StringData := [("root-password", password)] }

/-- pvcForMySQL; it panics where `resource.MustParse` does. -/
def pvcForMySQL (ParseQuantity : String → Option Quantity) (m : MySQL) (sanitizedName : String) :
    MayPanic PersistentVolumeClaim :=
  match MustParse ParseQuantity m.Spec.StorageSize with
  | .panics msg => .panics msg
  | .value q =>
    .value
      { toObjectMeta := objectMeta (sanitizedName ++ "-pvc") m.Namespace
        Spec :=
          { AccessModes := [PersistentVolumeAccessMode.ReadWriteOnce]
            Resources := { Requests := [("storage", q)] } } }

/-- deploymentForMySQL. -/
def deploymentForMySQL (m : MySQL) (sanitizedName : String) : Deployment :=
  let replicas : Int := 1
  { toObjectMeta := objectMeta sanitizedName m.Namespace
    Spec :=
      { Replicas := some replicas
        Selector := some { MatchLabels := [("app", sanitizedName)] }
        Template :=
          { ObjectMeta :=
              { Name := "", Namespace := "", UID := "", Labels := [("app", sanitizedName)],
                OwnerReferences := [] }
            Spec :=
              { Containers :=
                  [{ Name := "mysql"
                     Image := "mysql:" ++ m.Spec.Version
                     Ports := [{ ContainerPort := 3306, Name := "mysql" }]
                     Env :=
                       [{ Name := "MYSQL_ROOT_PASSWORD"
                          Value := ""
                          ValueFrom :=
                            some
                              { SecretKeyRef :=
                                  some
                                    { LocalObjectReference := { Name := sanitizedName ++ "-secret" }
                                      Key := "root-password" } } }]
                     VolumeMounts := [{ Name := "mysql-data", MountPath := "/var/lib/mysql" }] }]
                Volumes :=
                  [{ Name := "mysql-data"
                     VolumeSource :=
                       { PersistentVolumeClaim :=
                           some { ClaimName := sanitizedName ++ "-pvc" } } }] } } } }

/-- serviceForMySQL. -/
def serviceForMySQL (m : MySQL) (sanitizedName : String) : Service :=
  { toObjectMeta := objectMeta (sanitizedName ++ "-service") m.Namespace
    Spec :=
      { Selector := [("app", sanitizedName)]
        Ports := [{ Port := 3306, Name := "mysql", Protocol := Protocol.ProtocolTCP }]
        Type_ := ServiceType.ServiceTypeClusterIP } }

/-! ## The control plane: object store, injected failures, call trace -/

/-- An error value returned by a call; `notFound` is a status error with
reason NotFound, the one `errors.IsNotFound` recognises. -/
inductive Error where
  | notFound (msg : String)
  | alreadyExists (msg : String)
  | other (msg : String)
  deriving DecidableEq, Repr

/-- The test `errors.IsNotFound`. -/
def IsNotFound : Error → Bool
  | .notFound _ => true
  | _ => false

/-- The four dependent kinds. -/
inductive Kind where
  | Secret
  | PersistentVolumeClaim
  | Deployment
  | Service
  deriving DecidableEq, Repr

/-- A dependent object of any of the four kinds. -/
inductive Object where
  | secret (o : Secret)
  | pvc (o : PersistentVolumeClaim)
  | deployment (o : Deployment)
  | service (o : Service)
  deriving DecidableEq, Repr

/-- Kind of a dependent object. -/
def Object.kind : Object → Kind
  | .secret _ => Kind.Secret
  | .pvc _ => Kind.PersistentVolumeClaim
  | .deployment _ => Kind.Deployment
  | .service _ => Kind.Service

/-- Metadata of a dependent object. -/
def Object.meta : Object → ObjectMeta
  | .secret o => o.toObjectMeta
  | .pvc o => o.toObjectMeta
  | .deployment o => o.toObjectMeta
  | .service o => o.toObjectMeta

/-- Whether an object is the one a point lookup by kind, namespace and name asks for. -/
def Object.hasKey (k : Kind) (ns name : String) (o : Object) : Bool :=
  o.kind == k && o.meta.Namespace == ns && o.meta.Name == name

/-- A call issued to the control plane. -/
inductive Call where
  | getMySQL (ns name : String)
  | get (kind : Kind) (ns name : String)
  | create (obj : Object)
  | statusUpdate (m : MySQL)
  deriving DecidableEq, Repr

/-- The stored objects: the MySQL resources and the dependents. -/
structure Cluster where
  mysqls : List MySQL
  objects : List Object
  deriving DecidableEq, Repr

/-- Point lookup of a dependent in the store. -/
def Cluster.lookup (c : Cluster) (k : Kind) (ns name : String) : Option Object :=
  c.objects.find? (Object.hasKey k ns name)

/-- Point lookup of a MySQL resource in the store. -/
def Cluster.lookupMySQL (c : Cluster) (ns name : String) : Option MySQL :=
  c.mysqls.find? (fun m => m.Namespace == ns && m.Name == name)

/-- The store together with the calls issued so far, oldest first. -/
structure World where
  cluster : Cluster
  trace : List Call
  deriving DecidableEq, Repr

/-- Group, version and kind under which a type is registered. -/
structure GroupVersionKind where
  Group : String
  Version : String
  Kind : String
  deriving DecidableEq, Repr

/-- The `runtime.Scheme`, reduced to its entry for the MySQL type (none when the
type is not registered). -/
structure Scheme where
  MySQL : Option GroupVersionKind
  deriving DecidableEq, Repr

/-- MySQLReconciler: the client, the scheme, and the quantity parser of the
`resource` package.  `Client c` is the failure injected into call `c`, if any;
a call without one is answered by the store. -/
structure MySQLReconciler where
  Client : Call → Option Error
  Scheme : Scheme
  ParseQuantity : String → Option Quantity

/-- The request of a pass, `ctrl.Request`. -/
structure Request where
  Namespace : String
  Name : String
  deriving DecidableEq, Repr

/-- The result of a pass, `ctrl.Result`. -/
structure Result where
  Requeue : Bool
  RequeueAfter : Nat
  deriving DecidableEq, Repr

/-- The empty result `ctrl.Result{}`. -/
def Result.empty : Result := { Requeue := false, RequeueAfter := 0 }

/-- How a pass ends: it returns `(ctrl.Result, error)`, or it panics. -/
inductive Outcome where
  | returned (res : Result) (err : Option Error)
  | panicked (msg : String)
  deriving DecidableEq, Repr

/-! ## `controllerutil.SetControllerReference` -/

/-- The check `validateOwner`: a namespaced owner may only own objects of its
own namespace. -/
def validateOwner (owner object : ObjectMeta) : Option Error :=
  let ownerNs := owner.Namespace
  if ownerNs ≠ "" then
    let objNs := object.Namespace
    if objNs = "" then
      some (.other "cluster-scoped resource must not have a namespace-scoped owner")
    else if ownerNs ≠ objNs then
      some (.other "cross-namespace owner references are disallowed")
    else none
  else none

/-- The group and version string of a registration, `GroupVersion().String()`. -/
def GroupVersionKind.apiVersion (gvk : GroupVersionKind) : String :=
  if gvk.Group = "" then gvk.Version else gvk.Group ++ "/" ++ gvk.Version

/-- The controlling owner reference among those of an object, `metav1.GetControllerOf`. -/
def GetControllerOf (object : ObjectMeta) : Option OwnerReference :=
  object.OwnerReferences.find? (fun ref => ref.Controller == some true)

/-- The group of an API version string (`schema.ParseGroupVersion`). -/
def parseGroup (apiVersion : String) : Option String :=
  match apiVersion.splitOn "/" with
  | [_] => some ""
  | [g, _] => some g
  | _ => none

/-- Whether two owner references name the same object: same group, kind and name. -/
def referSameObject (a b : OwnerReference) : Bool :=
  match parseGroup a.APIVersion, parseGroup b.APIVersion with
  | some ga, some gb => ga == gb && a.Kind == b.Kind && a.Name == b.Name
  | _, _ => false

/-- Replace the first reference to the same object, or append: `upsertOwnerRef`. -/
def upsertOwnerRef (ref : OwnerReference) : List OwnerReference → List OwnerReference
  | [] => [ref]
  | o :: owners =>
    if referSameObject o ref then ref :: owners else o :: upsertOwnerRef ref owners

/-- The reference `SetControllerReference` builds for an owner. -/
def controllerRef (gvk : GroupVersionKind) (owner : MySQL) : OwnerReference :=
  { APIVersion := gvk.apiVersion, Kind := gvk.Kind, Name := owner.Name, UID := owner.UID,
    Controller := some true, BlockOwnerDeletion := some true }

/-- SetControllerReference from a MySQL owner: the metadata of the controlled
object with the owner reference set, or the error the call returns. -/
def SetControllerReference (owner : MySQL) (controlled : ObjectMeta) (scheme : Scheme) :
    Except Error ObjectMeta :=
  match validateOwner owner.toObjectMeta controlled with
  | some err => .error err
  | none =>
    match scheme.MySQL with
    | none => .error (.other "no kind is registered for the type MySQL")
    | some gvk =>
      let ref := controllerRef gvk owner
      match GetControllerOf controlled with
      | some existing =>
        if !referSameObject existing ref then .error (.other "object is already owned by another controller")
        else .ok { controlled with OwnerReferences := upsertOwnerRef ref controlled.OwnerReferences }
      | none => .ok { controlled with OwnerReferences := upsertOwnerRef ref controlled.OwnerReferences }

/-! ## Client calls -/

/-- The call `r.Get` for a MySQL resource: the error of the call or the stored object. -/
def MySQLReconciler.GetMySQL (r : MySQLReconciler) (w : World) (ns name : String) :
    Except Error MySQL × World :=
  let w' : World := { w with trace := w.trace ++ [Call.getMySQL ns name] }
  match r.Client (Call.getMySQL ns name) with
  | some err => (.error err, w')
  | none =>
    match w.cluster.lookupMySQL ns name with
    | some m => (.ok m, w')
    | none => (.error (.notFound name), w')

/-- The call `r.Get` for a dependent; only its error is used by the controller. -/
def MySQLReconciler.Get (r : MySQLReconciler) (w : World) (k : Kind) (ns name : String) :
    Option Error × World :=
  let w' : World := { w with trace := w.trace ++ [Call.get k ns name] }
  match r.Client (Call.get k ns name) with
  | some err => (some err, w')
  | none =>
    match w.cluster.lookup k ns name with
    | some _ => (none, w')
    | none => (some (.notFound name), w')

/-- The call `r.Create`: the object is stored unless the call fails. -/
def MySQLReconciler.Create (r : MySQLReconciler) (w : World) (obj : Object) :
    Option Error × World :=
  let trace := w.trace ++ [Call.create obj]
  match r.Client (Call.create obj) with
  | some err => (some err, { w with trace := trace })
  | none =>
    match w.cluster.lookup obj.kind obj.meta.Namespace obj.meta.Name with
    | some _ => (some (.alreadyExists obj.meta.Name), { w with trace := trace })
    | none =>
      (none, { cluster := { w.cluster with objects := w.cluster.objects ++ [obj] }, trace := trace })

/-- The call `r.Status().Update`: the stored resource takes the status sent. -/
def MySQLReconciler.StatusUpdate (r : MySQLReconciler) (w : World) (m : MySQL) :
    Option Error × World :=
  let trace := w.trace ++ [Call.statusUpdate m]
  match r.Client (Call.statusUpdate m) with
  | some err => (some err, { w with trace := trace })
  | none =>
    match w.cluster.lookupMySQL m.Namespace m.Name with
    | none => (some (.notFound m.Name), { w with trace := trace })
    | some _ =>
      (none,
        { cluster :=
            { w.cluster with
              mysqls := w.cluster.mysqls.map (fun x =>
                if x.Namespace == m.Namespace && x.Name == m.Name then { x with Status := m.Status }
                else x) }
          trace := trace })

/-! ## Reconcile (`mysql_controller.go`, lines 37-129)

The body is cut at its four `// Create or update ...` comments and at
`// Update status`; each part ends by running the next one. -/

/-- Lines 119-128: update status and return. -/
def reconcileStatus (r : MySQLReconciler) (mysql : MySQL) (w : World) : Outcome × World :=
  let mysql : MySQL :=
    { mysql with
      Status := { Phase := "Running", Ready := true, Message := "MySQL instance is running" } }
  match r.StatusUpdate w mysql with
  | (some err, w) => (.returned Result.empty (some err), w)
  | (none, w) => (.returned Result.empty none, w)

/-- Lines 103-117: the Service. -/
def reconcileService (r : MySQLReconciler) (mysql : MySQL) (sanitizedName : String) (w : World) :
    Outcome × World :=
  let service := serviceForMySQL mysql sanitizedName
  match SetControllerReference mysql service.toObjectMeta r.Scheme with
  | .error err => (.returned Result.empty (some err), w)
  | .ok meta =>
    let service : Service := { service with toObjectMeta := meta }
    match r.Get w Kind.Service service.Namespace service.Name with
    | (some err, w) =>
      if IsNotFound err then
        match r.Create w (.service service) with
        | (some err, w) => (.returned Result.empty (some err), w)
        | (none, w) => reconcileStatus r mysql w
      else reconcileStatus r mysql w
    | (none, w) => reconcileStatus r mysql w

/-- Lines 87-101: the Deployment. -/
def reconcileDeployment (r : MySQLReconciler) (mysql : MySQL) (sanitizedName : String)
    (w : World) : Outcome × World :=
  let deployment := deploymentForMySQL mysql sanitizedName
  match SetControllerReference mysql deployment.toObjectMeta r.Scheme with
  | .error err => (.returned Result.empty (some err), w)
  | .ok meta =>
    let deployment : Deployment := { deployment with toObjectMeta := meta }
    match r.Get w Kind.Deployment deployment.Namespace deployment.Name with
    | (some err, w) =>
      if IsNotFound err then
        match r.Create w (.deployment deployment) with
        | (some err, w) => (.returned Result.empty (some err), w)
        | (none, w) => reconcileService r mysql sanitizedName w
      else reconcileService r mysql sanitizedName w
    | (none, w) => reconcileService r mysql sanitizedName w

/-- Lines 71-85: the PersistentVolumeClaim. -/
def reconcilePVC (r : MySQLReconciler) (mysql : MySQL) (sanitizedName : String) (w : World) :
    Outcome × World :=
  match pvcForMySQL r.ParseQuantity mysql sanitizedName with
  | .panics msg => (.panicked msg, w)
  | .value pvc =>
    match SetControllerReference mysql pvc.toObjectMeta r.Scheme with
    | .error err => (.returned Result.empty (some err), w)
    | .ok meta =>
      let pvc : PersistentVolumeClaim := { pvc with toObjectMeta := meta }
      match r.Get w Kind.PersistentVolumeClaim pvc.Namespace pvc.Name with
      | (some err, w) =>
        if IsNotFound err then
          match r.Create w (.pvc pvc) with
          | (some err, w) => (.returned Result.empty (some err), w)
          | (none, w) => reconcileDeployment r mysql sanitizedName w
        else reconcileDeployment r mysql sanitizedName w
      | (none, w) => reconcileDeployment r mysql sanitizedName w

/-- Lines 55-69: the Secret. -/
def reconcileSecret (r : MySQLReconciler) (mysql : MySQL) (sanitizedName : String) (w : World) :
    Outcome × World :=
  let secret := secretForMySQL mysql sanitizedName
  match SetControllerReference mysql secret.toObjectMeta r.Scheme with
  | .error err => (.returned Result.empty (some err), w)
  | .ok meta =>
    let secret : Secret := { secret with toObjectMeta := meta }
    match r.Get w Kind.Secret secret.Namespace secret.Name with
    | (some err, w) =>
      if IsNotFound err then
        match r.Create w (.secret secret) with
        | (some err, w) => (.returned Result.empty (some err), w)
        | (none, w) => reconcilePVC r mysql sanitizedName w
      else reconcilePVC r mysql sanitizedName w
    | (none, w) => reconcilePVC r mysql sanitizedName w

/-- Reconcile: one pass for a request, from a store and a trace; it yields how
the pass ended, the store after it and the trace extended by its calls. -/
def Reconcile (r : MySQLReconciler) (req : Request) (w : World) : Outcome × World :=
  match r.GetMySQL w req.Namespace req.Name with
  | (.error err, w) =>
    if IsNotFound err then (.returned Result.empty none, w)
    else (.returned Result.empty (some err), w)
  | (.ok mysql, w) =>
    let sanitizedName := sanitizeName mysql.Name
    reconcileSecret r mysql sanitizedName w

/-! ## Sample inputs -/

/-- The MySQL type as the operator registers it. -/
def sampleScheme : Scheme :=
  { MySQL := some { Group := "database.mycompany.com", Version := "v1alpha1", Kind := "MySQL" } }

/-- A parser for samples: it knows the literals `10Gi` and `20Gi` only. -/
def sampleParse (s : String) : Option Quantity :=
  if s = "10Gi" ∨ s = "20Gi" then some { text := s } else none

/-- The sample resource of the end-to-end scenario. -/
def sampleMySQL : MySQL :=
  { toObjectMeta := { objectMeta "sample.db" "ns1" with UID := "uid-1" }
    Spec := { Version := "8.0", StorageSize := "10Gi", RootPassword := "" }
    Status := { Phase := "", Message := "", Ready := false } }

/-- A reconciler without injected failures. -/
def sampleReconciler : MySQLReconciler :=
  { Client := fun _ => none, Scheme := sampleScheme, ParseQuantity := sampleParse }

/-! ## Notions used in the statements -/

/-- Every string held in a piece of metadata. -/
def ObjectMeta.strings (o : ObjectMeta) : List String :=
  [o.Name, o.Namespace, o.UID] ++ o.Labels.flatMap (fun kv => [kv.1, kv.2]) ++
    o.OwnerReferences.flatMap (fun ref => [ref.APIVersion, ref.Kind, ref.Name, ref.UID])

/-- Every string held in an environment variable. -/
def EnvVar.strings (e : EnvVar) : List String :=
  [e.Name, e.Value] ++
    (match e.ValueFrom with
     | some { SecretKeyRef := some sel } => [sel.LocalObjectReference.Name, sel.Key]
     | _ => [])

/-- Every string held in a container. -/
def Container.strings (c : Container) : List String :=
  [c.Name, c.Image] ++ c.Ports.map (fun p => p.Name) ++ c.Env.flatMap EnvVar.strings ++
    c.VolumeMounts.flatMap (fun v => [v.Name, v.MountPath])

/-- Every string held in a volume. -/
def Volume.strings (v : Volume) : List String :=
  v.Name ::
    (match v.VolumeSource.PersistentVolumeClaim with
     | some src => [src.ClaimName]
     | none => [])

/-- Every string held anywhere in a Deployment object. -/
def Deployment.strings (d : Deployment) : List String :=
  d.toObjectMeta.strings ++
    (match d.Spec.Selector with
     | some sel => sel.MatchLabels.flatMap (fun kv => [kv.1, kv.2])
     | none => []) ++
    d.Spec.Template.ObjectMeta.strings ++
    d.Spec.Template.Spec.Containers.flatMap Container.strings ++
    d.Spec.Template.Spec.Volumes.flatMap Volume.strings

/-- An object with its owner references set to the single reference given. -/
def Object.owned (ref : OwnerReference) : Object → Object
  | .secret o => .secret { o with toObjectMeta := { o.toObjectMeta with OwnerReferences := [ref] } }
  | .pvc o => .pvc { o with toObjectMeta := { o.toObjectMeta with OwnerReferences := [ref] } }
  | .deployment o =>
    .deployment { o with toObjectMeta := { o.toObjectMeta with OwnerReferences := [ref] } }
  | .service o => .service { o with toObjectMeta := { o.toObjectMeta with OwnerReferences := [ref] } }

/-- The shape the four parts of Reconcile share: look the object up, create it
when the lookup says NotFound, and go on unless that create failed. -/
def ensure (r : MySQLReconciler) (obj : Object) (w : World) (next : World → Outcome × World) :
    Outcome × World :=
  match r.Get w obj.kind obj.meta.Namespace obj.meta.Name with
  | (some err, w) =>
    if IsNotFound err then
      match r.Create w obj with
      | (some err, w) => (.returned Result.empty (some err), w)
      | (none, w) => next w
    else next w
  | (none, w) => next w

/-- Position of a kind in the fixed order of a pass. -/
def Kind.rank : Kind → Nat
  | .Secret => 1
  | .PersistentVolumeClaim => 3
  | .Deployment => 5
  | .Service => 7

/-- Position of a call in the fixed order of a pass: the fetch, then for each
kind its lookup and its create, then the status update. -/
def Call.rank : Call → Nat
  | .getMySQL _ _ => 0
  | .get k _ _ => k.rank
  | .create obj => obj.kind.rank + 1
  | .statusUpdate _ => 9

/-- A sample resource whose root password is the word `mysql`. -/
def passwordMySQL : MySQL :=
  { sampleMySQL with Spec := { sampleMySQL.Spec with RootPassword := "mysql" } }

/-- The objects a create-if-absent of `obj` adds to a store: none when its key
is taken, `obj` otherwise. -/
def Cluster.missing (c : Cluster) (obj : Object) : List Object :=
  if (c.lookup obj.kind obj.meta.Namespace obj.meta.Name).isSome then [] else [obj]

/-- The calls a create-if-absent of `obj` issues against a store when no
failure is injected: the lookup, and the create when the key is free. -/
def Cluster.ensureCalls (c : Cluster) (obj : Object) : List Call :=
  if (c.lookup obj.kind obj.meta.Namespace obj.meta.Name).isSome then
    [Call.get obj.kind obj.meta.Namespace obj.meta.Name]
  else [Call.get obj.kind obj.meta.Namespace obj.meta.Name, Call.create obj]

/-- The store after a status update for `m` went through. -/
def Cluster.withStatus (c : Cluster) (m : MySQL) : Cluster :=
  { c with
    mysqls := c.mysqls.map (fun x =>
      if x.Namespace == m.Namespace && x.Name == m.Name then { x with Status := m.Status } else x) }

/-- The resource as the status step sends it. -/
def MySQL.running (m : MySQL) : MySQL :=
  { m with Status := { Phase := "Running", Ready := true, Message := "MySQL instance is running" } }

/-- The Secret a pass for `m` sends: built from the sanitized name, then owned. -/
def secretObject (gvk : GroupVersionKind) (m : MySQL) : Object :=
  (Object.secret (secretForMySQL m (sanitizeName m.Name))).owned (controllerRef gvk m)

/-- The claim a pass for `m` sends, from the claim the builder returned. -/
def pvcObject (gvk : GroupVersionKind) (m : MySQL) (pvc : PersistentVolumeClaim) : Object :=
  (Object.pvc pvc).owned (controllerRef gvk m)

/-- The Deployment a pass for `m` sends. -/
def deploymentObject (gvk : GroupVersionKind) (m : MySQL) : Object :=
  (Object.deployment (deploymentForMySQL m (sanitizeName m.Name))).owned (controllerRef gvk m)

/-- The Service a pass for `m` sends. -/
def serviceObject (gvk : GroupVersionKind) (m : MySQL) : Object :=
  (Object.service (serviceForMySQL m (sanitizeName m.Name))).owned (controllerRef gvk m)

/-- The store after a create-if-absent of `obj` went through. -/
def Cluster.ensured (c : Cluster) (obj : Object) : Cluster :=
  { c with objects := c.objects ++ c.missing obj }

/-- The store after the four create-if-absent steps of a pass went through. -/
def Cluster.afterPass (c : Cluster) (s p d v : Object) : Cluster :=
  (((c.ensured s).ensured p).ensured d).ensured v

/-- The lookups and creates of a pass in which no call fails. -/
def Cluster.passCalls (c : Cluster) (s p d v : Object) : List Call :=
  c.ensureCalls s ++ (c.ensured s).ensureCalls p ++ ((c.ensured s).ensured p).ensureCalls d ++
    (((c.ensured s).ensured p).ensured d).ensureCalls v

/-- The MySQL type as the samples register it. -/
def sampleGVK : GroupVersionKind :=
  { Group := "database.mycompany.com", Version := "v1alpha1", Kind := "MySQL" }

/-- A reconciler whose client fails the create of the sample Deployment and
nothing else. -/
def failingDeploymentReconciler : MySQLReconciler :=
  { Client := fun c =>
      if c = Call.create (deploymentObject sampleGVK sampleMySQL) then
        some (.other "create refused")
      else none
    Scheme := sampleScheme
    ParseQuantity := sampleParse }

/-- What a run from world `w` to world `w'` may have done: it appended objects
whose keys were free in `w`, and it appended calls whose positions in the fixed
order of a pass increase strictly and start at `lo` or later. -/
def Frame (lo : Nat) (w w' : World) : Prop :=
  ∃ added calls, w'.cluster.objects = w.cluster.objects ++ added ∧
    w'.trace = w.trace ++ calls ∧
    (∀ o ∈ added, w.cluster.lookup o.kind o.meta.Namespace o.meta.Name = none) ∧
    (calls.map Call.rank).Pairwise (· < ·) ∧ ∀ c ∈ calls, lo ≤ c.rank

/-- The sample request. -/
def sampleRequest : Request := { Namespace := "ns1", Name := "sample.db" }

/-- The store a first pass for the sample resource leaves behind. -/
def convergedCluster : Cluster :=
  (Reconcile sampleReconciler sampleRequest
    { cluster := { mysqls := [sampleMySQL], objects := [] }, trace := [] }).2.cluster

/-- The sample resource after its owner edited every field of the Spec. -/
def editedMySQL : MySQL :=
  { sampleMySQL with Spec := { Version := "5.7", StorageSize := "20Gi", RootPassword := "s3cret" } }

/-- The converged store with the edited resource in place of the sample one. -/
def editedCluster : Cluster :=
  { convergedCluster with mysqls := [editedMySQL] }

/-- A store that holds the sample resource and, from elsewhere, a Secret under
the name the pass would use, with no owner reference. -/
def strayCluster : Cluster :=
  { mysqls := [sampleMySQL]
    objects := [Object.secret (secretForMySQL sampleMySQL "sample-db")] }

/-- The sample resource with a storage size that is no quantity. -/
def badSizeMySQL : MySQL :=
  { sampleMySQL with Spec := { sampleMySQL.Spec with StorageSize := "lots" } }

/-- A reconciler whose client fails the lookup of the sample Secret with an
error that is not NotFound, and nothing else. -/
def lookupErrorReconciler : MySQLReconciler :=
  { Client := fun c =>
      if c = Call.get Kind.Secret "ns1" "sample-db-secret" then some (.other "timeout") else none
    Scheme := sampleScheme
    ParseQuantity := sampleParse }

/-- A lowercase letter or a digit. -/
def isLowerAlnum (c : Char) : Bool :=
  ('a' ≤ c && c ≤ 'z') || ('0' ≤ c && c ≤ '9')

/-- A lowercase letter. -/
def isLowerAlpha (c : Char) : Bool :=
  'a' ≤ c && c ≤ 'z'

/-- A valid resource name in the sense used here, a DNS-1123 subdomain: at most
253 characters, each a lowercase letter, a digit, a dash or a dot, the first and
the last a letter or a digit. -/
def isDNS1123Subdomain (name : String) : Bool :=
  decide (name.data.length ≤ 253) &&
    name.data.all (fun c => isLowerAlnum c || c == '-' || c == '.') &&
    (name.data.head?.map isLowerAlnum).getD false &&
    (name.data.getLast?.map isLowerAlnum).getD false

/-- A DNS-1035 label: at most 63 characters, each a lowercase letter, a digit or
a dash, the first a letter, the last a letter or a digit. -/
def isDNS1035Label (name : String) : Bool :=
  decide (name.data.length ≤ 63) &&
    name.data.all (fun c => isLowerAlnum c || c == '-') &&
    (name.data.head?.map isLowerAlpha).getD false &&
    (name.data.getLast?.map isLowerAlnum).getD false

/-- A valid resource name of 64 letters. -/
def longName : String := ⟨List.replicate 64 'a'⟩

/-- Whether a call is a status update. -/
def Call.isStatusUpdate : Call → Bool
  | .statusUpdate _ => true
  | _ => false

/-- What a run from world `w` with result `res` did about the status: either it
issued no status update and left the stored MySQL resources as they were, or its
last call, and only that one, is a status update for some resource with the
status Running, which either failed (an error is returned, the stored resources
are as they were) or went through (no error, the stored resource has that
status). -/
def StatusLog (w : World) (res : Outcome × World) : Prop :=
  (∃ calls, res.2.trace = w.trace ++ calls ∧ (∀ x, Call.statusUpdate x ∉ calls) ∧
      res.2.cluster.mysqls = w.cluster.mysqls) ∨
    ∃ (calls : List Call) (m : MySQL),
      res.2.trace = w.trace ++ calls ++ [Call.statusUpdate m.running] ∧
      (∀ x, Call.statusUpdate x ∉ calls) ∧
      ((res.2.cluster.mysqls = w.cluster.mysqls ∧
          ∃ e, res.1 = .returned Result.empty (some e)) ∨
        (res.2.cluster.mysqls = (w.cluster.withStatus m.running).mysqls ∧
          res.1 = .returned Result.empty none))

/-- A resource with its status blanked. -/
def MySQL.withoutStatus (m : MySQL) : MySQL :=
  { m with Status := { Phase := "", Message := "", Ready := false } }

/-- A world with the status of every stored resource blanked: two worlds with
the same image hold the same objects and the same trace, and the same MySQL
resources up to their statuses. -/
def World.withoutStatus (w : World) : World :=
  { cluster := { mysqls := w.cluster.mysqls.map MySQL.withoutStatus, objects := w.cluster.objects }
    trace := w.trace }

/-- Two results of a pass that agree in everything but stored statuses. -/
def SameButStatus (x y : Outcome × World) : Prop :=
  x.1 = y.1 ∧ x.2.withoutStatus = y.2.withoutStatus

/-- A resource named with a dot. -/
def dottedMySQL : MySQL :=
  { toObjectMeta := { objectMeta "a.b" "ns1" with UID := "uid-dotted" }
    Spec := { Version := "8.0", StorageSize := "10Gi", RootPassword := "" }
    Status := { Phase := "", Message := "", Ready := false } }

/-- A resource named like `dottedMySQL` with a dash for the dot. -/
def dashedMySQL : MySQL :=
  { toObjectMeta := { objectMeta "a-b" "ns1" with UID := "uid-dashed" }
    Spec := { Version := "5.7", StorageSize := "20Gi", RootPassword := "other" }
    Status := { Phase := "", Message := "", Ready := false } }

/-- A store with both resources and no dependent. -/
def twinCluster : Cluster :=
  { mysqls := [dottedMySQL, dashedMySQL], objects := [] }

/-- The store after a pass for the dotted resource. -/
def afterDottedCluster : Cluster :=
  (Reconcile sampleReconciler { Namespace := "ns1", Name := "a.b" }
    { cluster := twinCluster, trace := [] }).2.cluster

/-! ## Theorems: the builders -/

theorem sanitizeName_sample : sanitizeName "sample.db" = "sample-db" := by decide

/-- C9: for every MySQL resource, with c the sanitized name Reconcile computes,
the Deployment built has match labels and pod template labels both exactly the
single-entry map app = c, and the Service built has exactly that selector. -/
theorem selector_labels_agree (m : MySQL) :
    (deploymentForMySQL m (sanitizeName m.Name)).Spec.Selector
        = some { MatchLabels := [("app", sanitizeName m.Name)] } ∧
      (deploymentForMySQL m (sanitizeName m.Name)).Spec.Template.ObjectMeta.Labels
        = [("app", sanitizeName m.Name)] ∧
      (serviceForMySQL m (sanitizeName m.Name)).Spec.Selector = [("app", sanitizeName m.Name)] :=
  ⟨rfl, rfl, rfl⟩

/-- C10, as stated, fails: with root password `mysql` the password string occurs
in the Deployment built (it is the container name and the port name), while the
Secret built stores that same string as the password. -/
theorem password_string_occurs_in_deployment :
    (secretForMySQL passwordMySQL (sanitizeName passwordMySQL.Name)).StringData
        = [("root-password", passwordMySQL.Spec.RootPassword)] ∧
      passwordMySQL.Spec.RootPassword
        ∈ (deploymentForMySQL passwordMySQL (sanitizeName passwordMySQL.Name)).strings := by
  decide

/-- C10, amended: the Deployment built has exactly one environment variable,
MYSQL_ROOT_PASSWORD, with no literal value and sourced from a secret key
reference whose secret name is the name of the Secret built for the same inputs
and whose key is a key of that Secret; when the storage size parses, its one
volume references the claim named as the PersistentVolumeClaim built, and the
one volume mount names that volume.  The builder does not read the root
password: resources that differ in it only get the same Deployment. -/
theorem deployment_references (parse : String → Option Quantity) (m : MySQL) (c : String)
    (pvc : PersistentVolumeClaim) (hpvc : pvcForMySQL parse m c = .value pvc) :
    (deploymentForMySQL m c).Spec.Template.Spec.Containers.map (fun k => k.Env)
        = [[{ Name := "MYSQL_ROOT_PASSWORD", Value := "",
              ValueFrom :=
                some
                  { SecretKeyRef :=
                      some
                        { LocalObjectReference := { Name := (secretForMySQL m c).Name },
                          Key := "root-password" } } }]] ∧
      "root-password" ∈ (secretForMySQL m c).StringData.map Prod.fst ∧
      (deploymentForMySQL m c).Spec.Template.Spec.Volumes
        = [{ Name := "mysql-data",
             VolumeSource := { PersistentVolumeClaim := some { ClaimName := pvc.Name } } }] ∧
      (deploymentForMySQL m c).Spec.Template.Spec.Containers.map
          (fun k => k.VolumeMounts.map (fun v => v.Name)) = [["mysql-data"]] ∧
      ∀ p : String,
        deploymentForMySQL { m with Spec := { m.Spec with RootPassword := p } } c
          = deploymentForMySQL m c := by
  have hname : pvc.Name = c ++ "-pvc" := by
    unfold pvcForMySQL at hpvc
    split at hpvc
    · cases hpvc
    · cases hpvc; rfl
  refine ⟨rfl, ?_, ?_, rfl, fun p => rfl⟩
  · simp [secretForMySQL]
  · rw [hname]; rfl

theorem deployment_references_witness :
    pvcForMySQL sampleParse sampleMySQL "sample-db"
        = .value
          { toObjectMeta := objectMeta "sample-db-pvc" "ns1"
            Spec := { AccessModes := [PersistentVolumeAccessMode.ReadWriteOnce]
                      Resources := { Requests := [("storage", { text := "10Gi" })] } } } ∧
      (deploymentForMySQL sampleMySQL "sample-db").Spec.Template.Spec.Volumes
        = [{ Name := "mysql-data",
             VolumeSource := { PersistentVolumeClaim := some { ClaimName := "sample-db-pvc" } } }] :=
  ⟨by decide,
    (deployment_references sampleParse sampleMySQL "sample-db"
      { toObjectMeta := objectMeta "sample-db-pvc" "ns1"
        Spec := { AccessModes := [PersistentVolumeAccessMode.ReadWriteOnce]
                  Resources := { Requests := [("storage", { text := "10Gi" })] } } }
      (by decide)).2.2.1⟩

/-! ## Lemmas: the store -/

theorem find_append_of_some {α : Type} (p : α → Bool) (l l' : List α) (a : α)
    (h : l.find? p = some a) : (l ++ l').find? p = some a := by
  simp [List.find?_append, h]

theorem find_append_of_none {α : Type} (p : α → Bool) (l l' : List α)
    (h : l.find? p = none) : (l ++ l').find? p = l'.find? p := by
  simp [List.find?_append, h]

theorem hasKey_of_kind_ne (k : Kind) (ns name : String) (o : Object) (h : o.kind ≠ k) :
    Object.hasKey k ns name o = false := by
  simp [Object.hasKey, h]

theorem hasKey_self (o : Object) : Object.hasKey o.kind o.meta.Namespace o.meta.Name o = true := by
  simp [Object.hasKey]

theorem owned_kind (ref : OwnerReference) (o : Object) : (o.owned ref).kind = o.kind := by
  cases o <;> rfl

theorem owned_namespace (ref : OwnerReference) (o : Object) :
    (o.owned ref).meta.Namespace = o.meta.Namespace := by
  cases o <;> rfl

theorem owned_name (ref : OwnerReference) (o : Object) : (o.owned ref).meta.Name = o.meta.Name := by
  cases o <;> rfl

theorem owned_ownerReferences (ref : OwnerReference) (o : Object) :
    (o.owned ref).meta.OwnerReferences = [ref] := by
  cases o <;> rfl

/-! ## Lemmas: `SetControllerReference` on a freshly built object -/

theorem validateOwner_same_namespace (owner object : ObjectMeta)
    (h : object.Namespace = owner.Namespace) : validateOwner owner object = none := by
  unfold validateOwner
  by_cases h0 : owner.Namespace = "" <;> simp [h0, h]

theorem SetControllerReference_built (m : MySQL) (name : String) (scheme : Scheme) :
    SetControllerReference m (objectMeta name m.Namespace) scheme =
      match scheme.MySQL with
      | none => .error (.other "no kind is registered for the type MySQL")
      | some gvk =>
        .ok { objectMeta name m.Namespace with OwnerReferences := [controllerRef gvk m] } := by
  unfold SetControllerReference
  rw [validateOwner_same_namespace m.toObjectMeta (objectMeta name m.Namespace) rfl]
  cases scheme.MySQL <;> simp [GetControllerOf, objectMeta, upsertOwnerRef]

/-! ## Lemmas: the shared shape of the four parts -/

theorem ensure_ok (r : MySQLReconciler) (obj : Object) (w : World)
    (next : World → Outcome × World)
    (hg : r.Client (Call.get obj.kind obj.meta.Namespace obj.meta.Name) = none)
    (hc : r.Client (Call.create obj) = none) :
    ensure r obj w next =
      next { cluster := w.cluster.ensured obj, trace := w.trace ++ w.cluster.ensureCalls obj } := by
  unfold ensure MySQLReconciler.Get MySQLReconciler.Create Cluster.ensured Cluster.missing
    Cluster.ensureCalls
  cases h : w.cluster.lookup obj.kind obj.meta.Namespace obj.meta.Name <;>
    simp [hg, hc, h, IsNotFound]

theorem reconcileSecret_eq (r : MySQLReconciler) (m : MySQL) (s : String) (w : World)
    (gvk : GroupVersionKind) (hs : r.Scheme.MySQL = some gvk) :
    reconcileSecret r m s w =
      ensure r ((Object.secret (secretForMySQL m s)).owned (controllerRef gvk m)) w
        (reconcilePVC r m s) := by
  unfold reconcileSecret
  simp only [secretForMySQL, SetControllerReference_built, hs]
  rfl

theorem reconcilePVC_eq (r : MySQLReconciler) (m : MySQL) (s : String) (w : World)
    (gvk : GroupVersionKind) (hs : r.Scheme.MySQL = some gvk) (pvc : PersistentVolumeClaim)
    (hp : pvcForMySQL r.ParseQuantity m s = .value pvc) :
    reconcilePVC r m s w =
      ensure r ((Object.pvc pvc).owned (controllerRef gvk m)) w (reconcileDeployment r m s) := by
  have hmeta : pvc.toObjectMeta = objectMeta (s ++ "-pvc") m.Namespace := by
    unfold pvcForMySQL at hp
    split at hp
    · cases hp
    · cases hp; rfl
  obtain ⟨meta, spec⟩ := pvc
  simp only at hmeta
  subst hmeta
  unfold reconcilePVC
  simp only [hp, SetControllerReference_built, hs]
  rfl

theorem reconcileDeployment_eq (r : MySQLReconciler) (m : MySQL) (s : String) (w : World)
    (gvk : GroupVersionKind) (hs : r.Scheme.MySQL = some gvk) :
    reconcileDeployment r m s w =
      ensure r ((Object.deployment (deploymentForMySQL m s)).owned (controllerRef gvk m)) w
        (reconcileService r m s) := by
  unfold reconcileDeployment
  simp only [deploymentForMySQL, SetControllerReference_built, hs]
  rfl

theorem reconcileService_eq (r : MySQLReconciler) (m : MySQL) (s : String) (w : World)
    (gvk : GroupVersionKind) (hs : r.Scheme.MySQL = some gvk) :
    reconcileService r m s w =
      ensure r ((Object.service (serviceForMySQL m s)).owned (controllerRef gvk m)) w
        (reconcileStatus r m) := by
  unfold reconcileService
  simp only [serviceForMySQL, SetControllerReference_built, hs]
  rfl

/-! ## Lemmas: the parts of a pass -/

theorem lookupMySQL_key (c : Cluster) (ns name : String) (m : MySQL)
    (h : c.lookupMySQL ns name = some m) : m.Namespace = ns ∧ m.Name = name := by
  have := List.find?_some h
  simpa using this

theorem pvcForMySQL_value (parse : String → Option Quantity) (m : MySQL) (s : String)
    (q : Quantity) (hq : parse m.Spec.StorageSize = some q) :
    ∃ pvc, pvcForMySQL parse m s = .value pvc ∧ pvc.Name = s ++ "-pvc" ∧
      pvc.Namespace = m.Namespace ∧ pvc.OwnerReferences = [] := by
  simp [pvcForMySQL, MustParse, hq, objectMeta]

theorem pvcForMySQL_meta (parse : String → Option Quantity) (m : MySQL) (s : String)
    (pvc : PersistentVolumeClaim) (hp : pvcForMySQL parse m s = .value pvc) :
    pvc.toObjectMeta = objectMeta (s ++ "-pvc") m.Namespace := by
  unfold pvcForMySQL at hp
  split at hp
  · cases hp
  · cases hp; rfl

theorem Reconcile_fetched (r : MySQLReconciler) (req : Request) (w : World) (m : MySQL)
    (hc : r.Client (Call.getMySQL req.Namespace req.Name) = none)
    (hm : w.cluster.lookupMySQL req.Namespace req.Name = some m) :
    Reconcile r req w =
      reconcileSecret r m (sanitizeName m.Name)
        { w with trace := w.trace ++ [Call.getMySQL req.Namespace req.Name] } := by
  simp [Reconcile, MySQLReconciler.GetMySQL, hc, hm]

theorem reconcileStatus_ok (r : MySQLReconciler) (m : MySQL) (w : World)
    (hc : r.Client (Call.statusUpdate m.running) = none)
    (hm : (w.cluster.lookupMySQL m.Namespace m.Name).isSome) :
    reconcileStatus r m w =
      (.returned Result.empty none,
        { cluster := w.cluster.withStatus m.running
          trace := w.trace ++ [Call.statusUpdate m.running] }) := by
  obtain ⟨x, hx⟩ := Option.isSome_iff_exists.mp hm
  unfold reconcileStatus MySQLReconciler.StatusUpdate
  simp only [MySQL.running] at hc
  simp only [hc, hx]
  rfl

/-! ## Lemmas: create-if-absent on the store -/

theorem ensured_mysqls (c : Cluster) (o : Object) : (c.ensured o).mysqls = c.mysqls := rfl

theorem ensured_lookupMySQL (c : Cluster) (o : Object) (ns name : String) :
    (c.ensured o).lookupMySQL ns name = c.lookupMySQL ns name := rfl

theorem ensured_of_present (c : Cluster) (o : Object)
    (h : (c.lookup o.kind o.meta.Namespace o.meta.Name).isSome) : c.ensured o = c := by
  simp [Cluster.ensured, Cluster.missing, h]

theorem ensureCalls_of_present (c : Cluster) (o : Object)
    (h : (c.lookup o.kind o.meta.Namespace o.meta.Name).isSome) :
    c.ensureCalls o = [Call.get o.kind o.meta.Namespace o.meta.Name] := by
  simp [Cluster.ensureCalls, h]

theorem ensured_of_absent (c : Cluster) (o : Object)
    (h : c.lookup o.kind o.meta.Namespace o.meta.Name = none) :
    c.ensured o = { c with objects := c.objects ++ [o] } := by
  simp [Cluster.ensured, Cluster.missing, h]

theorem ensureCalls_of_absent (c : Cluster) (o : Object)
    (h : c.lookup o.kind o.meta.Namespace o.meta.Name = none) :
    c.ensureCalls o = [Call.get o.kind o.meta.Namespace o.meta.Name, Call.create o] := by
  simp [Cluster.ensureCalls, h]

theorem ensured_lookup_mono (c : Cluster) (o x : Object) (k : Kind) (ns name : String)
    (h : c.lookup k ns name = some x) : (c.ensured o).lookup k ns name = some x :=
  find_append_of_some _ _ _ _ h

theorem ensured_lookup_of_kind_ne (c : Cluster) (o : Object) (k : Kind) (ns name : String)
    (h : o.kind ≠ k) : (c.ensured o).lookup k ns name = c.lookup k ns name := by
  unfold Cluster.ensured Cluster.missing Cluster.lookup
  split
  · simp
  · simp [List.find?_append, hasKey_of_kind_ne k ns name o h]

theorem ensured_lookup_self (c : Cluster) (o : Object) :
    ((c.ensured o).lookup o.kind o.meta.Namespace o.meta.Name).isSome := by
  cases h : c.lookup o.kind o.meta.Namespace o.meta.Name with
  | some x => rw [ensured_lookup_mono c o x _ _ _ h]; rfl
  | none =>
    rw [ensured_of_absent c o h]
    unfold Cluster.lookup at h ⊢
    simp [List.find?_append, h, hasKey_self]

theorem withStatus_objects (c : Cluster) (m : MySQL) : (c.withStatus m).objects = c.objects := rfl

theorem withStatus_lookup (c : Cluster) (m : MySQL) (k : Kind) (ns name : String) :
    (c.withStatus m).lookup k ns name = c.lookup k ns name := rfl

theorem withStatus_lookupMySQL (c : Cluster) (m x : MySQL) (ns name : String)
    (h : c.lookupMySQL ns name = some x) (hns : m.Namespace = ns) (hname : m.Name = name) :
    (c.withStatus m).lookupMySQL ns name = some { x with Status := m.Status } := by
  obtain ⟨hxns, hxname⟩ := lookupMySQL_key c ns name x h
  unfold Cluster.lookupMySQL Cluster.withStatus at *
  rw [List.find?_map]
  have hfun : ((fun y : MySQL => y.Namespace == ns && y.Name == name) ∘ fun y : MySQL =>
      if (y.Namespace == m.Namespace && y.Name == m.Name) = true then
        { y with Status := m.Status } else y)
      = fun y : MySQL => y.Namespace == ns && y.Name == name := by
    funext y
    simp only [Function.comp]
    split <;> rfl
  rw [hfun, h]
  simp [hxns, hxname, hns, hname]

theorem withStatus_idem (c : Cluster) (m : MySQL) :
    (c.withStatus m).withStatus m = c.withStatus m := by
  unfold Cluster.withStatus
  simp only [List.map_map]
  congr 1
  apply List.map_congr_left
  intro y _
  simp only [Function.comp]
  by_cases hy : (y.Namespace == m.Namespace && y.Name == m.Name) = true
  · simp [hy]
  · simp [hy]

/-! ## A pass in which no call fails -/

theorem Reconcile_ok_eq (r : MySQLReconciler) (req : Request) (w : World) (m : MySQL)
    (gvk : GroupVersionKind) (pvc : PersistentVolumeClaim)
    (hok : ∀ c, r.Client c = none)
    (hm : w.cluster.lookupMySQL req.Namespace req.Name = some m)
    (hs : r.Scheme.MySQL = some gvk)
    (hp : pvcForMySQL r.ParseQuantity m (sanitizeName m.Name) = .value pvc) :
    Reconcile r req w =
      (.returned Result.empty none,
        { cluster :=
            (w.cluster.afterPass (secretObject gvk m) (pvcObject gvk m pvc) (deploymentObject gvk m)
              (serviceObject gvk m)).withStatus m.running
          trace :=
            w.trace ++ [Call.getMySQL req.Namespace req.Name] ++
              w.cluster.passCalls (secretObject gvk m) (pvcObject gvk m pvc)
                (deploymentObject gvk m) (serviceObject gvk m) ++
              [Call.statusUpdate m.running] }) := by
  obtain ⟨hns, hname⟩ := lookupMySQL_key _ _ _ _ hm
  rw [Reconcile_fetched r req w m (hok _) hm, reconcileSecret_eq r m _ _ gvk hs,
    ensure_ok r _ _ _ (hok _) (hok _), reconcilePVC_eq r m _ _ gvk hs pvc hp,
    ensure_ok r _ _ _ (hok _) (hok _), reconcileDeployment_eq r m _ _ gvk hs,
    ensure_ok r _ _ _ (hok _) (hok _), reconcileService_eq r m _ _ gvk hs,
    ensure_ok r _ _ _ (hok _) (hok _), reconcileStatus_ok r m _ (hok _)]
  · simp only [Cluster.afterPass, Cluster.passCalls, secretObject, pvcObject, deploymentObject,
      serviceObject, List.append_assoc]
  · simp only [ensured_lookupMySQL, hns, hname, hm]
    rfl

theorem ensured_lookup_isSome_mono (c : Cluster) (o : Object) (k : Kind) (ns name : String)
    (h : (c.lookup k ns name).isSome) : ((c.ensured o).lookup k ns name).isSome := by
  obtain ⟨x, hx⟩ := Option.isSome_iff_exists.mp h
  rw [ensured_lookup_mono c o x k ns name hx]
  rfl

theorem afterPass_present (c : Cluster) (s p d v : Object) :
    ((c.afterPass s p d v).lookup s.kind s.meta.Namespace s.meta.Name).isSome ∧
      ((c.afterPass s p d v).lookup p.kind p.meta.Namespace p.meta.Name).isSome ∧
      ((c.afterPass s p d v).lookup d.kind d.meta.Namespace d.meta.Name).isSome ∧
      ((c.afterPass s p d v).lookup v.kind v.meta.Namespace v.meta.Name).isSome := by
  unfold Cluster.afterPass
  refine ⟨?_, ?_, ?_, ?_⟩
  · exact ensured_lookup_isSome_mono _ _ _ _ _ (ensured_lookup_isSome_mono _ _ _ _ _
      (ensured_lookup_isSome_mono _ _ _ _ _ (ensured_lookup_self c s)))
  · exact ensured_lookup_isSome_mono _ _ _ _ _ (ensured_lookup_isSome_mono _ _ _ _ _
      (ensured_lookup_self _ p))
  · exact ensured_lookup_isSome_mono _ _ _ _ _ (ensured_lookup_self _ d)
  · exact ensured_lookup_self _ v

theorem afterPass_of_present (c : Cluster) (s p d v : Object)
    (hs : (c.lookup s.kind s.meta.Namespace s.meta.Name).isSome)
    (hp : (c.lookup p.kind p.meta.Namespace p.meta.Name).isSome)
    (hd : (c.lookup d.kind d.meta.Namespace d.meta.Name).isSome)
    (hv : (c.lookup v.kind v.meta.Namespace v.meta.Name).isSome) :
    c.afterPass s p d v = c ∧
      c.passCalls s p d v =
        [Call.get s.kind s.meta.Namespace s.meta.Name, Call.get p.kind p.meta.Namespace p.meta.Name,
          Call.get d.kind d.meta.Namespace d.meta.Name,
          Call.get v.kind v.meta.Namespace v.meta.Name] := by
  unfold Cluster.afterPass Cluster.passCalls
  simp only [ensured_of_present c s hs, ensured_of_present c p hp, ensured_of_present c d hd,
    ensured_of_present c v hv, ensureCalls_of_present c s hs, ensureCalls_of_present c p hp,
    ensureCalls_of_present c d hd, ensureCalls_of_present c v hv]
  simp

theorem Reconcile_ok_inv (r : MySQLReconciler) (req : Request) (w w1 : World) (m : MySQL)
    (hok : ∀ c, r.Client c = none)
    (hm : w.cluster.lookupMySQL req.Namespace req.Name = some m)
    (h1 : Reconcile r req w = (.returned Result.empty none, w1)) :
    ∃ gvk pvc, r.Scheme.MySQL = some gvk ∧
      pvcForMySQL r.ParseQuantity m (sanitizeName m.Name) = .value pvc := by
  rw [Reconcile_fetched r req w m (hok _) hm] at h1
  cases hs : r.Scheme.MySQL with
  | none =>
    exfalso
    unfold reconcileSecret at h1
    simp only [secretForMySQL, SetControllerReference_built, hs] at h1
    cases h1
  | some gvk =>
    refine ⟨gvk, ?_⟩
    rw [reconcileSecret_eq r m _ _ gvk hs, ensure_ok r _ _ _ (hok _) (hok _)] at h1
    cases hp : pvcForMySQL r.ParseQuantity m (sanitizeName m.Name) with
    | value pvc => exact ⟨pvc, rfl, rfl⟩
    | panics msg =>
      exfalso
      unfold reconcilePVC at h1
      simp only [hp] at h1
      cases h1

/-! ## Theorems: passes -/

/-- C5: for every request, reconciler and store, if the fetch of the MySQL
resource returns an error that is NotFound, Reconcile returns the empty result
with no error, the fetch is the only call of the pass, and the store is
unchanged. -/
theorem Reconcile_fetch_notFound (r : MySQLReconciler) (req : Request) (w : World) (err : Error)
    (hget : (r.GetMySQL w req.Namespace req.Name).1 = .error err)
    (hnf : IsNotFound err = true) :
    Reconcile r req w =
      (.returned Result.empty none,
        { cluster := w.cluster, trace := w.trace ++ [Call.getMySQL req.Namespace req.Name] }) := by
  have h2 : (r.GetMySQL w req.Namespace req.Name).2 =
      { cluster := w.cluster, trace := w.trace ++ [Call.getMySQL req.Namespace req.Name] } := by
    unfold MySQLReconciler.GetMySQL
    split
    · rfl
    · split <;> rfl
  unfold Reconcile
  rw [show r.GetMySQL w req.Namespace req.Name = (.error err, _) from Prod.ext hget h2]
  simp [hnf]

theorem Reconcile_fetch_notFound_witness :
    Reconcile sampleReconciler { Namespace := "ns1", Name := "gone" }
        { cluster := { mysqls := [], objects := [] }, trace := [] } =
      (.returned Result.empty none,
        { cluster := { mysqls := [], objects := [] }, trace := [Call.getMySQL "ns1" "gone"] }) :=
  Reconcile_fetch_notFound sampleReconciler { Namespace := "ns1", Name := "gone" }
    { cluster := { mysqls := [], objects := [] }, trace := [] } (.notFound "gone") rfl rfl

/-- C8: for a stored MySQL resource with a storage size the parser accepts, a
store holding none of its four dependents, a registered scheme and no failing
call, Reconcile issues the fetch, then for Secret, PersistentVolumeClaim,
Deployment and Service in this order one lookup and one create of the object
named c-secret, c-pvc, c and c-service (c the sanitized name) in the namespace
of the resource, then one status update; it returns no error, and the store
holds the four objects created. -/
theorem Reconcile_creates_all (r : MySQLReconciler) (req : Request) (w : World) (m : MySQL)
    (gvk : GroupVersionKind) (q : Quantity)
    (hok : ∀ c, r.Client c = none)
    (hm : w.cluster.lookupMySQL req.Namespace req.Name = some m)
    (hs : r.Scheme.MySQL = some gvk)
    (hq : r.ParseQuantity m.Spec.StorageSize = some q)
    (hS : w.cluster.lookup Kind.Secret m.Namespace (sanitizeName m.Name ++ "-secret") = none)
    (hP : w.cluster.lookup Kind.PersistentVolumeClaim m.Namespace (sanitizeName m.Name ++ "-pvc")
      = none)
    (hD : w.cluster.lookup Kind.Deployment m.Namespace (sanitizeName m.Name) = none)
    (hV : w.cluster.lookup Kind.Service m.Namespace (sanitizeName m.Name ++ "-service") = none) :
    ∃ pvc, pvcForMySQL r.ParseQuantity m (sanitizeName m.Name) = .value pvc ∧
      Reconcile r req w =
        (.returned Result.empty none,
          { cluster :=
              { mysqls := (w.cluster.withStatus m.running).mysqls
                objects :=
                  w.cluster.objects ++
                    [secretObject gvk m, pvcObject gvk m pvc, deploymentObject gvk m,
                      serviceObject gvk m] }
            trace :=
              w.trace ++
                [Call.getMySQL req.Namespace req.Name,
                  Call.get Kind.Secret m.Namespace (sanitizeName m.Name ++ "-secret"),
                  Call.create (secretObject gvk m),
                  Call.get Kind.PersistentVolumeClaim m.Namespace (sanitizeName m.Name ++ "-pvc"),
                  Call.create (pvcObject gvk m pvc),
                  Call.get Kind.Deployment m.Namespace (sanitizeName m.Name),
                  Call.create (deploymentObject gvk m),
                  Call.get Kind.Service m.Namespace (sanitizeName m.Name ++ "-service"),
                  Call.create (serviceObject gvk m),
                  Call.statusUpdate m.running] }) ∧
      [secretObject gvk m, pvcObject gvk m pvc, deploymentObject gvk m, serviceObject gvk m].map
          (fun o => (o.kind, o.meta.Namespace, o.meta.Name)) =
        [(Kind.Secret, m.Namespace, sanitizeName m.Name ++ "-secret"),
          (Kind.PersistentVolumeClaim, m.Namespace, sanitizeName m.Name ++ "-pvc"),
          (Kind.Deployment, m.Namespace, sanitizeName m.Name),
          (Kind.Service, m.Namespace, sanitizeName m.Name ++ "-service")] := by
  obtain ⟨pvc, hp, hpn, hpns, -⟩ := pvcForMySQL_value r.ParseQuantity m (sanitizeName m.Name) q hq
  have kS : (secretObject gvk m).kind = Kind.Secret ∧ (secretObject gvk m).meta.Namespace
      = m.Namespace ∧ (secretObject gvk m).meta.Name = sanitizeName m.Name ++ "-secret" :=
    ⟨rfl, rfl, rfl⟩
  have kP : (pvcObject gvk m pvc).kind = Kind.PersistentVolumeClaim ∧
      (pvcObject gvk m pvc).meta.Namespace = m.Namespace ∧
      (pvcObject gvk m pvc).meta.Name = sanitizeName m.Name ++ "-pvc" :=
    ⟨rfl, hpns, hpn⟩
  have kD : (deploymentObject gvk m).kind = Kind.Deployment ∧
      (deploymentObject gvk m).meta.Namespace = m.Namespace ∧
      (deploymentObject gvk m).meta.Name = sanitizeName m.Name :=
    ⟨rfl, rfl, rfl⟩
  have kV : (serviceObject gvk m).kind = Kind.Service ∧
      (serviceObject gvk m).meta.Namespace = m.Namespace ∧
      (serviceObject gvk m).meta.Name = sanitizeName m.Name ++ "-service" :=
    ⟨rfl, rfl, rfl⟩
  refine ⟨pvc, hp, ?_, ?_⟩
  · rw [Reconcile_ok_eq r req w m gvk pvc hok hm hs hp]
    have e1 : w.cluster.lookup (secretObject gvk m).kind (secretObject gvk m).meta.Namespace
        (secretObject gvk m).meta.Name = none := by
      rw [kS.1, kS.2.1, kS.2.2]; exact hS
    have e2 : (w.cluster.ensured (secretObject gvk m)).lookup (pvcObject gvk m pvc).kind
        (pvcObject gvk m pvc).meta.Namespace (pvcObject gvk m pvc).meta.Name = none := by
      rw [kP.1, kP.2.1, kP.2.2, ensured_lookup_of_kind_ne _ _ _ _ _ (by rw [kS.1]; decide)]
      exact hP
    have e3 : ((w.cluster.ensured (secretObject gvk m)).ensured (pvcObject gvk m pvc)).lookup
        (deploymentObject gvk m).kind (deploymentObject gvk m).meta.Namespace
        (deploymentObject gvk m).meta.Name = none := by
      rw [kD.1, kD.2.1, kD.2.2, ensured_lookup_of_kind_ne _ _ _ _ _ (by rw [kP.1]; decide),
        ensured_lookup_of_kind_ne _ _ _ _ _ (by rw [kS.1]; decide)]
      exact hD
    have e4 : (((w.cluster.ensured (secretObject gvk m)).ensured (pvcObject gvk m pvc)).ensured
        (deploymentObject gvk m)).lookup (serviceObject gvk m).kind
        (serviceObject gvk m).meta.Namespace (serviceObject gvk m).meta.Name = none := by
      rw [kV.1, kV.2.1, kV.2.2, ensured_lookup_of_kind_ne _ _ _ _ _ (by rw [kD.1]; decide),
        ensured_lookup_of_kind_ne _ _ _ _ _ (by rw [kP.1]; decide),
        ensured_lookup_of_kind_ne _ _ _ _ _ (by rw [kS.1]; decide)]
      exact hV
    unfold Cluster.afterPass Cluster.passCalls
    rw [ensureCalls_of_absent _ _ e1, ensureCalls_of_absent _ _ e2, ensureCalls_of_absent _ _ e3,
      ensureCalls_of_absent _ _ e4, ensured_of_absent _ _ e4, ensured_of_absent _ _ e3,
      ensured_of_absent _ _ e2, ensured_of_absent _ _ e1]
    simp only [kS.1, kS.2.1, kS.2.2, kP.1, kP.2.1, kP.2.2, kD.1, kD.2.1, kD.2.2, kV.1, kV.2.1,
      kV.2.2, Cluster.withStatus, List.append_assoc, List.cons_append, List.nil_append]
  · simp only [List.map, kS.1, kS.2.1, kS.2.2, kP.1, kP.2.1, kP.2.2, kD.1, kD.2.1, kD.2.2, kV.1,
      kV.2.1, kV.2.2]

theorem Reconcile_creates_all_witness :
    (Reconcile sampleReconciler { Namespace := "ns1", Name := "sample.db" }
        { cluster := { mysqls := [sampleMySQL], objects := [] }, trace := [] }).1
      = .returned Result.empty none := by
  obtain ⟨pvc, -, h, -⟩ :=
    Reconcile_creates_all sampleReconciler { Namespace := "ns1", Name := "sample.db" }
      { cluster := { mysqls := [sampleMySQL], objects := [] }, trace := [] } sampleMySQL
      { Group := "database.mycompany.com", Version := "v1alpha1", Kind := "MySQL" }
      { text := "10Gi" } (fun _ => rfl) (by decide) rfl (by decide) rfl rfl rfl rfl
  rw [h]

/-- C2: for every stored MySQL resource and every store, when no call fails and
a first pass returns no error, then the storage size is one the parser accepts
and a second pass for the same request, run on the store the first one left,
issues the fetch, exactly four lookups and no create, then one status update
carrying the status the first pass wrote; it returns no error and leaves the
whole store, the four dependents included, as it was. -/
theorem Reconcile_idempotent (r : MySQLReconciler) (req : Request) (w w1 : World) (m : MySQL)
    (hok : ∀ c, r.Client c = none)
    (hm : w.cluster.lookupMySQL req.Namespace req.Name = some m)
    (h1 : Reconcile r req w = (.returned Result.empty none, w1)) :
    ∃ gvk pvc q, r.Scheme.MySQL = some gvk ∧ r.ParseQuantity m.Spec.StorageSize = some q ∧
      pvcForMySQL r.ParseQuantity m (sanitizeName m.Name) = .value pvc ∧
      (∃ t, w1.trace = t ++ [Call.statusUpdate m.running]) ∧
      Reconcile r req { cluster := w1.cluster, trace := [] } =
        (.returned Result.empty none,
          { cluster := w1.cluster
            trace :=
              [Call.getMySQL req.Namespace req.Name,
                Call.get Kind.Secret m.Namespace (sanitizeName m.Name ++ "-secret"),
                Call.get Kind.PersistentVolumeClaim m.Namespace (sanitizeName m.Name ++ "-pvc"),
                Call.get Kind.Deployment m.Namespace (sanitizeName m.Name),
                Call.get Kind.Service m.Namespace (sanitizeName m.Name ++ "-service"),
                Call.statusUpdate m.running] }) := by
  obtain ⟨gvk, pvc, hs, hp⟩ := Reconcile_ok_inv r req w w1 m hok hm h1
  have hq : ∃ q, r.ParseQuantity m.Spec.StorageSize = some q := by
    cases hq : r.ParseQuantity m.Spec.StorageSize with
    | some q => exact ⟨q, rfl⟩
    | none => simp [pvcForMySQL, MustParse, hq] at hp
  obtain ⟨q, hq⟩ := hq
  have hpm := pvcForMySQL_meta _ _ _ _ hp
  obtain ⟨hns, hname⟩ := lookupMySQL_key _ _ _ _ hm
  rw [Reconcile_ok_eq r req w m gvk pvc hok hm hs hp] at h1
  have hw1 : w1 = _ := (Prod.mk.inj h1).2.symm
  refine ⟨gvk, pvc, q, hs, hq, hp, ⟨_, by rw [hw1]⟩, ?_⟩
  have hm2 : w1.cluster.lookupMySQL req.Namespace req.Name = some m.running := by
    rw [hw1]
    exact withStatus_lookupMySQL _ m.running m _ _ hm hns hname
  have hp2 : pvcForMySQL r.ParseQuantity m.running (sanitizeName m.running.Name) = .value pvc :=
    hp
  have hall := afterPass_present w.cluster (secretObject gvk m) (pvcObject gvk m pvc)
    (deploymentObject gvk m) (serviceObject gvk m)
  have hc1 : w1.cluster.objects = (w.cluster.afterPass (secretObject gvk m) (pvcObject gvk m pvc)
      (deploymentObject gvk m) (serviceObject gvk m)).objects := by rw [hw1]; rfl
  have hlk : ∀ k ns n, w1.cluster.lookup k ns n = (w.cluster.afterPass (secretObject gvk m)
      (pvcObject gvk m pvc) (deploymentObject gvk m) (serviceObject gvk m)).lookup k ns n := by
    intro k ns n
    unfold Cluster.lookup
    rw [hc1]
  have hfix := afterPass_of_present w1.cluster (secretObject gvk m) (pvcObject gvk m pvc)
    (deploymentObject gvk m) (serviceObject gvk m) (by rw [hlk]; exact hall.1)
    (by rw [hlk]; exact hall.2.1) (by rw [hlk]; exact hall.2.2.1) (by rw [hlk]; exact hall.2.2.2)
  rw [Reconcile_ok_eq r req { cluster := w1.cluster, trace := [] } m.running gvk pvc hok hm2 hs hp2]
  have hobj : secretObject gvk m.running = secretObject gvk m ∧
      pvcObject gvk m.running pvc = pvcObject gvk m pvc ∧
      deploymentObject gvk m.running = deploymentObject gvk m ∧
      serviceObject gvk m.running = serviceObject gvk m := ⟨rfl, rfl, rfl, rfl⟩
  have hrun : m.running.running = m.running := rfl
  simp only [hobj.1, hobj.2.1, hobj.2.2.1, hobj.2.2.2, hrun, hfix.1, hfix.2]
  have hst : w1.cluster.withStatus m.running = w1.cluster := by
    rw [hw1]
    exact withStatus_idem _ _
  rw [hst]
  have kP : (pvcObject gvk m pvc).meta.Namespace = m.Namespace ∧
      (pvcObject gvk m pvc).meta.Name = sanitizeName m.Name ++ "-pvc" := by
    unfold pvcObject
    rw [owned_namespace, owned_name]
    simp [Object.meta, hpm, objectMeta]
  simp only [kP.1, kP.2, List.nil_append, List.cons_append]
  rfl

theorem Reconcile_idempotent_witness :
    (Reconcile sampleReconciler { Namespace := "ns1", Name := "sample.db" }
        { cluster := (Reconcile sampleReconciler { Namespace := "ns1", Name := "sample.db" }
            { cluster := { mysqls := [sampleMySQL], objects := [] }, trace := [] }).2.cluster
          trace := [] }).2.trace.length = 6 := by
  obtain ⟨_, _, _, -, -, -, -, h⟩ :=
    Reconcile_idempotent sampleReconciler { Namespace := "ns1", Name := "sample.db" }
      { cluster := { mysqls := [sampleMySQL], objects := [] }, trace := [] }
      (Reconcile sampleReconciler { Namespace := "ns1", Name := "sample.db" }
        { cluster := { mysqls := [sampleMySQL], objects := [] }, trace := [] }).2
      sampleMySQL (fun _ => rfl) (by decide) (by decide)
  rw [h]
  rfl

theorem ensure_create_fails (r : MySQLReconciler) (obj : Object) (w : World)
    (next : World → Outcome × World) (e : Error)
    (hg : r.Client (Call.get obj.kind obj.meta.Namespace obj.meta.Name) = none)
    (habs : w.cluster.lookup obj.kind obj.meta.Namespace obj.meta.Name = none)
    (hc : r.Client (Call.create obj) = some e) :
    ensure r obj w next =
      (.returned Result.empty (some e),
        { cluster := w.cluster
          trace := w.trace ++
            [Call.get obj.kind obj.meta.Namespace obj.meta.Name, Call.create obj] }) := by
  unfold ensure MySQLReconciler.Get MySQLReconciler.Create
  simp [hg, hc, habs, IsNotFound]

theorem create_ne_of_kind_ne (o o' : Object) (h : o.kind ≠ o'.kind) :
    Call.create o ≠ Call.create o' := by
  intro heq
  exact h (congrArg Object.kind (Call.create.inj heq))

theorem ensureCalls_rank (c : Cluster) (o : Object) (x : Call) (hx : x ∈ c.ensureCalls o) :
    x.rank = o.kind.rank ∨ x.rank = o.kind.rank + 1 := by
  unfold Cluster.ensureCalls at hx
  split at hx
  · simp only [List.mem_singleton] at hx
    subst hx
    exact Or.inl rfl
  · simp only [List.mem_cons, List.mem_singleton, List.not_mem_nil, or_false] at hx
    rcases hx with hx | hx
    · subst hx; exact Or.inl rfl
    · subst hx; exact Or.inr rfl

/-- C4: for a stored MySQL resource with a storage size the parser accepts and a
store without its Deployment, when the fetch, the lookups and creates of the
Secret and PersistentVolumeClaim steps and the lookup of the Deployment do not
fail and the create of the Deployment fails with an error, Reconcile returns
that error; the calls of the pass are the fetch, the Secret and
PersistentVolumeClaim steps and the lookup and create of the Deployment, so no
lookup or create of a Service and no status update; the stored MySQL resources
are untouched, and the Secret and the PersistentVolumeClaim are in the store
after the pass. -/
theorem Reconcile_deployment_create_fails (r : MySQLReconciler) (req : Request) (w : World)
    (m : MySQL) (gvk : GroupVersionKind) (q : Quantity) (e : Error)
    (hm : w.cluster.lookupMySQL req.Namespace req.Name = some m)
    (hs : r.Scheme.MySQL = some gvk)
    (hq : r.ParseQuantity m.Spec.StorageSize = some q)
    (hD : w.cluster.lookup Kind.Deployment m.Namespace (sanitizeName m.Name) = none)
    (hfetch : r.Client (Call.getMySQL req.Namespace req.Name) = none)
    (hgS : r.Client (Call.get Kind.Secret m.Namespace (sanitizeName m.Name ++ "-secret")) = none)
    (hcS : r.Client (Call.create (secretObject gvk m)) = none)
    (hgP : r.Client (Call.get Kind.PersistentVolumeClaim m.Namespace
      (sanitizeName m.Name ++ "-pvc")) = none)
    (hcP : ∀ pvc, r.Client (Call.create (pvcObject gvk m pvc)) = none)
    (hgD : r.Client (Call.get Kind.Deployment m.Namespace (sanitizeName m.Name)) = none)
    (hfail : r.Client (Call.create (deploymentObject gvk m)) = some e) :
    ∃ pvc calls w', pvcForMySQL r.ParseQuantity m (sanitizeName m.Name) = .value pvc ∧
      Reconcile r req w = (.returned Result.empty (some e), w') ∧
      w'.trace = w.trace ++ calls ∧
      (∀ c ∈ calls, c.rank ≤ 6) ∧
      (∀ ns n, Call.get Kind.Service ns n ∉ calls) ∧
      (∀ o, o.kind = Kind.Service → Call.create o ∉ calls) ∧
      (∀ x, Call.statusUpdate x ∉ calls) ∧
      w'.cluster.mysqls = w.cluster.mysqls ∧
      w'.cluster = (w.cluster.ensured (secretObject gvk m)).ensured (pvcObject gvk m pvc) ∧
      (w'.cluster.lookup Kind.Secret m.Namespace (sanitizeName m.Name ++ "-secret")).isSome ∧
      (w'.cluster.lookup Kind.PersistentVolumeClaim m.Namespace
        (sanitizeName m.Name ++ "-pvc")).isSome := by
  obtain ⟨pvc, hp, hpn, hpns, -⟩ := pvcForMySQL_value r.ParseQuantity m (sanitizeName m.Name) q hq
  have kP : (pvcObject gvk m pvc).kind = Kind.PersistentVolumeClaim ∧
      (pvcObject gvk m pvc).meta.Namespace = m.Namespace ∧
      (pvcObject gvk m pvc).meta.Name = sanitizeName m.Name ++ "-pvc" :=
    ⟨rfl, hpns, hpn⟩
  have hcP := hcP pvc
  have hgP' : r.Client (Call.get (pvcObject gvk m pvc).kind (pvcObject gvk m pvc).meta.Namespace
      (pvcObject gvk m pvc).meta.Name) = none := by
    rw [kP.1, kP.2.1, kP.2.2]; exact hgP
  have hDabs : ((w.cluster.ensured (secretObject gvk m)).ensured (pvcObject gvk m pvc)).lookup
        (deploymentObject gvk m).kind (deploymentObject gvk m).meta.Namespace
        (deploymentObject gvk m).meta.Name = none := by
    rw [ensured_lookup_of_kind_ne _ _ _ _ _ (by
        rw [kP.1]; show Kind.PersistentVolumeClaim ≠ Kind.Deployment; decide),
      ensured_lookup_of_kind_ne _ _ _ _ _ (by show Kind.Secret ≠ Kind.Deployment; decide)]
    exact hD
  have hrun : Reconcile r req w = (.returned Result.empty (some e),
      { cluster := (w.cluster.ensured (secretObject gvk m)).ensured (pvcObject gvk m pvc)
        trace := w.trace ++ ([Call.getMySQL req.Namespace req.Name] ++
          w.cluster.ensureCalls (secretObject gvk m) ++
          (w.cluster.ensured (secretObject gvk m)).ensureCalls (pvcObject gvk m pvc) ++
          [Call.get Kind.Deployment m.Namespace (sanitizeName m.Name),
            Call.create (deploymentObject gvk m)]) }) := by
    simp only [secretObject, pvcObject, deploymentObject] at hcS hcP hgP' hfail hDabs
    rw [Reconcile_fetched r req w m hfetch hm, reconcileSecret_eq r m _ _ gvk hs,
      ensure_ok r ((Object.secret (secretForMySQL m (sanitizeName m.Name))).owned
        (controllerRef gvk m)) _ _ hgS hcS, reconcilePVC_eq r m _ _ gvk hs pvc hp,
      ensure_ok r _ _ _ hgP' hcP, reconcileDeployment_eq r m _ _ gvk hs,
      ensure_create_fails r ((Object.deployment (deploymentForMySQL m (sanitizeName m.Name))).owned
        (controllerRef gvk m)) _ _ e hgD hDabs hfail]
    simp only [List.append_assoc]
    rfl
  have hrank : ∀ c ∈ [Call.getMySQL req.Namespace req.Name] ++
      w.cluster.ensureCalls (secretObject gvk m) ++
      (w.cluster.ensured (secretObject gvk m)).ensureCalls (pvcObject gvk m pvc) ++
      [Call.get Kind.Deployment m.Namespace (sanitizeName m.Name),
        Call.create (deploymentObject gvk m)], c.rank ≤ 6 := by
    intro c hc
    simp only [List.mem_append, List.mem_singleton, List.mem_cons, List.not_mem_nil,
      or_false] at hc
    rcases hc with ((hc | hc) | hc) | hc | hc
    · subst hc; simp [Call.rank]
    · have kS : (secretObject gvk m).kind = Kind.Secret := rfl
      rcases ensureCalls_rank _ _ _ hc with h | h <;> rw [h, kS] <;> decide
    · rcases ensureCalls_rank _ _ _ hc with h | h <;> rw [h, kP.1] <;> decide
    · subst hc; show (5 : Nat) ≤ 6; decide
    · subst hc; show (6 : Nat) ≤ 6; decide
  refine ⟨pvc, _, _, hp, hrun, rfl, hrank, ?_, ?_, ?_, rfl, rfl, ?_, ?_⟩
  · intro ns n hmem
    have := hrank _ hmem
    simp [Call.rank, Kind.rank] at this
  · intro o ho hmem
    have := hrank _ hmem
    simp [Call.rank, Kind.rank, ho] at this
  · intro x hmem
    have := hrank _ hmem
    simp [Call.rank] at this
  · exact ensured_lookup_isSome_mono _ _ _ _ _ (ensured_lookup_self w.cluster (secretObject gvk m))
  · have := ensured_lookup_self (w.cluster.ensured (secretObject gvk m)) (pvcObject gvk m pvc)
    rw [kP.1, kP.2.1, kP.2.2] at this
    exact this

theorem Reconcile_deployment_create_fails_witness :
    (Reconcile failingDeploymentReconciler { Namespace := "ns1", Name := "sample.db" }
        { cluster := { mysqls := [sampleMySQL], objects := [] }, trace := [] }).1
      = .returned Result.empty (some (.other "create refused")) := by
  obtain ⟨_, _, _, -, h, -⟩ :=
    Reconcile_deployment_create_fails failingDeploymentReconciler
      { Namespace := "ns1", Name := "sample.db" }
      { cluster := { mysqls := [sampleMySQL], objects := [] }, trace := [] } sampleMySQL
      sampleGVK { text := "10Gi" } (.other "create refused") (by decide) rfl (by decide) rfl
      (by decide) (by decide) (by decide) (by decide)
      (fun pvc => by
        simp only [failingDeploymentReconciler]
        exact if_neg (create_ne_of_kind_ne _ _ (by
          show Kind.PersistentVolumeClaim ≠ Kind.Deployment; decide)))
      (by decide) (by decide)
  rw [h]

/-! ## Lemmas: every path of a pass -/

theorem ensure_cases (r : MySQLReconciler) (obj : Object) (w : World)
    (next : World → Outcome × World) :
    ensure r obj w next =
        next { cluster := w.cluster
               trace := w.trace ++ [Call.get obj.kind obj.meta.Namespace obj.meta.Name] } ∨
      (∃ e, ensure r obj w next =
        (.returned Result.empty (some e),
          { cluster := w.cluster
            trace := w.trace ++ [Call.get obj.kind obj.meta.Namespace obj.meta.Name] ++
              [Call.create obj] })) ∨
      (w.cluster.lookup obj.kind obj.meta.Namespace obj.meta.Name = none ∧
        ensure r obj w next =
          next { cluster := { w.cluster with objects := w.cluster.objects ++ [obj] }
                 trace := w.trace ++ [Call.get obj.kind obj.meta.Namespace obj.meta.Name] ++
                   [Call.create obj] }) := by
  unfold ensure MySQLReconciler.Get MySQLReconciler.Create
  cases hcg : r.Client (Call.get obj.kind obj.meta.Namespace obj.meta.Name) with
  | some err =>
    simp only
    by_cases hnf : IsNotFound err = true
    · simp only [hnf, if_true]
      cases hcc : r.Client (Call.create obj) with
      | some e => exact Or.inr (Or.inl ⟨e, rfl⟩)
      | none =>
        cases hl : w.cluster.lookup obj.kind obj.meta.Namespace obj.meta.Name with
        | some x => exact Or.inr (Or.inl ⟨_, rfl⟩)
        | none => exact Or.inr (Or.inr ⟨rfl, rfl⟩)
    · simp only [hnf]
      exact Or.inl rfl
  | none =>
    simp only
    cases hl : w.cluster.lookup obj.kind obj.meta.Namespace obj.meta.Name with
    | some x => exact Or.inl rfl
    | none =>
      simp only [IsNotFound, if_true]
      cases hcc : r.Client (Call.create obj) with
      | some e => exact Or.inr (Or.inl ⟨e, rfl⟩)
      | none =>
        refine Or.inr (Or.inr ⟨trivial, ?_⟩)
        simp only [hl]

theorem Frame.refl (lo : Nat) (w : World) : Frame lo w w :=
  ⟨[], [], by simp, by simp, by simp, by simp, by simp⟩

theorem Frame.weaken (lo lo' : Nat) (w w' : World) (h : Frame lo w w') (hle : lo' ≤ lo) :
    Frame lo' w w' := by
  obtain ⟨added, calls, ho, ht, ha, hp, hl⟩ := h
  exact ⟨added, calls, ho, ht, ha, hp, fun c hc => le_trans hle (hl c hc)⟩

theorem Frame.call (lo : Nat) (c : Call) (cl : Cluster) (t : List Call) (w' : World)
    (hlo : lo ≤ c.rank) (h : Frame (c.rank + 1) { cluster := cl, trace := t ++ [c] } w') :
    Frame lo { cluster := cl, trace := t } w' := by
  obtain ⟨added, calls, ho, ht, ha, hp, hl⟩ := h
  refine ⟨added, c :: calls, ho, ?_, ha, ?_, ?_⟩
  · rw [ht]; simp
  · rw [List.map_cons, List.pairwise_cons]
    refine ⟨?_, hp⟩
    intro x hx
    obtain ⟨y, hy, rfl⟩ := List.mem_map.mp hx
    exact hl y hy
  · intro x hx
    rcases List.mem_cons.mp hx with rfl | hx
    · exact hlo
    · exact le_trans hlo (le_trans (Nat.le_succ _) (hl x hx))

theorem Frame.added (lo : Nat) (o : Object) (cl : Cluster) (t : List Call) (w' : World)
    (habs : cl.lookup o.kind o.meta.Namespace o.meta.Name = none)
    (h : Frame lo { cluster := { cl with objects := cl.objects ++ [o] }, trace := t } w') :
    Frame lo { cluster := cl, trace := t } w' := by
  obtain ⟨added, calls, ho, ht, ha, hp, hl⟩ := h
  refine ⟨o :: added, calls, ?_, ht, ?_, hp, hl⟩
  · rw [ho]; simp
  · intro x hx
    rcases List.mem_cons.mp hx with rfl | hx
    · exact habs
    · have := ha x hx
      unfold Cluster.lookup at this ⊢
      rw [List.find?_eq_none] at this ⊢
      intro y hy
      exact this y (List.mem_append_left _ hy)

theorem ensure_frame (r : MySQLReconciler) (obj : Object) (w : World)
    (next : World → Outcome × World) (lo : Nat) (hlo : lo ≤ obj.kind.rank)
    (hnext : ∀ w1, Frame (obj.kind.rank + 2) w1 (next w1).2) :
    Frame lo w (ensure r obj w next).2 := by
  have hget : (Call.get obj.kind obj.meta.Namespace obj.meta.Name).rank = obj.kind.rank := rfl
  have hcreate : (Call.create obj).rank = obj.kind.rank + 1 := rfl
  rcases ensure_cases r obj w next with h | ⟨e, h⟩ | ⟨habs, h⟩
  · rw [h]
    exact Frame.call lo (Call.get obj.kind obj.meta.Namespace obj.meta.Name) w.cluster w.trace _
      (by rw [hget]; exact hlo) (Frame.weaken _ _ _ _ (hnext _) (by rw [hget]; omega))
  · rw [h]
    exact Frame.call lo (Call.get obj.kind obj.meta.Namespace obj.meta.Name) w.cluster w.trace _
      (by rw [hget]; exact hlo)
      (Frame.call _ (Call.create obj) w.cluster _ _ (by rw [hget, hcreate]) (Frame.refl _ _))
  · rw [h]
    refine Frame.call lo (Call.get obj.kind obj.meta.Namespace obj.meta.Name) w.cluster w.trace _
      (by rw [hget]; exact hlo) ?_
    refine Frame.call _ (Call.create obj) w.cluster _ _ (by rw [hget, hcreate]) ?_
    exact Frame.added _ obj w.cluster _ _ habs
      (Frame.weaken _ _ _ _ (hnext _) (by rw [hcreate]))

theorem reconcileStatus_cases (r : MySQLReconciler) (m : MySQL) (w : World) :
    (∃ e, reconcileStatus r m w =
        (.returned Result.empty (some e),
          { cluster := w.cluster, trace := w.trace ++ [Call.statusUpdate m.running] })) ∨
      reconcileStatus r m w =
        (.returned Result.empty none,
          { cluster := w.cluster.withStatus m.running
            trace := w.trace ++ [Call.statusUpdate m.running] }) := by
  cases hc : r.Client (Call.statusUpdate m.running) with
  | some e =>
    left
    refine ⟨e, ?_⟩
    unfold reconcileStatus MySQLReconciler.StatusUpdate
    simp only [MySQL.running] at hc
    simp only [hc]
    rfl
  | none =>
    cases hl : w.cluster.lookupMySQL m.Namespace m.Name with
    | some x => exact Or.inr (reconcileStatus_ok r m w hc (by rw [hl]; rfl))
    | none =>
      left
      refine ⟨.notFound m.Name, ?_⟩
      unfold reconcileStatus MySQLReconciler.StatusUpdate
      simp only [MySQL.running] at hc
      simp only [hc, hl]
      rfl

theorem reconcileSecret_shape (r : MySQLReconciler) (m : MySQL) (s : String) (w : World) :
    (∃ e, reconcileSecret r m s w = (.returned Result.empty (some e), w)) ∨
      ∃ gvk, r.Scheme.MySQL = some gvk ∧
        reconcileSecret r m s w =
          ensure r ((Object.secret (secretForMySQL m s)).owned (controllerRef gvk m)) w
            (reconcilePVC r m s) := by
  cases hs : r.Scheme.MySQL with
  | none =>
    left
    unfold reconcileSecret
    simp only [secretForMySQL, SetControllerReference_built, hs]
    exact ⟨_, rfl⟩
  | some gvk => exact Or.inr ⟨gvk, rfl, reconcileSecret_eq r m s w gvk hs⟩

theorem reconcilePVC_panics (r : MySQLReconciler) (m : MySQL) (s : String) (w : World)
    (msg : String) (hp : pvcForMySQL r.ParseQuantity m s = .panics msg) :
    reconcilePVC r m s w = (.panicked msg, w) := by
  unfold reconcilePVC
  simp only [hp]

theorem reconcilePVC_shape (r : MySQLReconciler) (m : MySQL) (s : String) (w : World) :
    (∃ msg, pvcForMySQL r.ParseQuantity m s = .panics msg ∧
        reconcilePVC r m s w = (.panicked msg, w)) ∨
      (∃ e, reconcilePVC r m s w = (.returned Result.empty (some e), w)) ∨
      ∃ gvk pvc, r.Scheme.MySQL = some gvk ∧ pvcForMySQL r.ParseQuantity m s = .value pvc ∧
        reconcilePVC r m s w =
          ensure r ((Object.pvc pvc).owned (controllerRef gvk m)) w (reconcileDeployment r m s) := by
  cases hp : pvcForMySQL r.ParseQuantity m s with
  | panics msg => exact Or.inl ⟨msg, rfl, reconcilePVC_panics r m s w msg hp⟩
  | value pvc =>
    right
    cases hs : r.Scheme.MySQL with
    | none =>
      left
      have hmeta := pvcForMySQL_meta _ _ _ _ hp
      unfold reconcilePVC
      simp only [hp, hmeta, SetControllerReference_built, hs]
      exact ⟨_, rfl⟩
    | some gvk => exact Or.inr ⟨gvk, pvc, rfl, rfl, reconcilePVC_eq r m s w gvk hs pvc hp⟩

theorem reconcileDeployment_shape (r : MySQLReconciler) (m : MySQL) (s : String) (w : World) :
    (∃ e, reconcileDeployment r m s w = (.returned Result.empty (some e), w)) ∨
      ∃ gvk, r.Scheme.MySQL = some gvk ∧
        reconcileDeployment r m s w =
          ensure r ((Object.deployment (deploymentForMySQL m s)).owned (controllerRef gvk m)) w
            (reconcileService r m s) := by
  cases hs : r.Scheme.MySQL with
  | none =>
    left
    unfold reconcileDeployment
    simp only [deploymentForMySQL, SetControllerReference_built, hs]
    exact ⟨_, rfl⟩
  | some gvk => exact Or.inr ⟨gvk, rfl, reconcileDeployment_eq r m s w gvk hs⟩

theorem reconcileService_shape (r : MySQLReconciler) (m : MySQL) (s : String) (w : World) :
    (∃ e, reconcileService r m s w = (.returned Result.empty (some e), w)) ∨
      ∃ gvk, r.Scheme.MySQL = some gvk ∧
        reconcileService r m s w =
          ensure r ((Object.service (serviceForMySQL m s)).owned (controllerRef gvk m)) w
            (reconcileStatus r m) := by
  cases hs : r.Scheme.MySQL with
  | none =>
    left
    unfold reconcileService
    simp only [serviceForMySQL, SetControllerReference_built, hs]
    exact ⟨_, rfl⟩
  | some gvk => exact Or.inr ⟨gvk, rfl, reconcileService_eq r m s w gvk hs⟩

theorem reconcileStatus_frame (r : MySQLReconciler) (m : MySQL) (w : World) :
    Frame 9 w (reconcileStatus r m w).2 := by
  rcases reconcileStatus_cases r m w with ⟨e, h⟩ | h <;> rw [h] <;>
    exact ⟨[], [Call.statusUpdate m.running], by simp [Cluster.withStatus], rfl, by simp,
      by simp, by simp [Call.rank]⟩

theorem reconcileService_frame (r : MySQLReconciler) (m : MySQL) (s : String) (w : World) :
    Frame 7 w (reconcileService r m s w).2 := by
  rcases reconcileService_shape r m s w with ⟨out, h⟩ | ⟨gvk, -, h⟩ <;> rw [h]
  · exact Frame.refl _ _
  · exact ensure_frame r _ w _ 7 (le_refl _) (fun w1 => reconcileStatus_frame r m w1)

theorem reconcileDeployment_frame (r : MySQLReconciler) (m : MySQL) (s : String) (w : World) :
    Frame 5 w (reconcileDeployment r m s w).2 := by
  rcases reconcileDeployment_shape r m s w with ⟨out, h⟩ | ⟨gvk, -, h⟩ <;> rw [h]
  · exact Frame.refl _ _
  · exact ensure_frame r _ w _ 5 (le_refl _) (fun w1 => reconcileService_frame r m s w1)

theorem reconcilePVC_frame (r : MySQLReconciler) (m : MySQL) (s : String) (w : World) :
    Frame 3 w (reconcilePVC r m s w).2 := by
  rcases reconcilePVC_shape r m s w with ⟨msg, -, h⟩ | ⟨e, h⟩ | ⟨gvk, pvc, -, -, h⟩ <;> rw [h]
  · exact Frame.refl _ _
  · exact Frame.refl _ _
  · exact ensure_frame r _ w _ 3 (le_refl _) (fun w1 => reconcileDeployment_frame r m s w1)

theorem reconcileSecret_frame (r : MySQLReconciler) (m : MySQL) (s : String) (w : World) :
    Frame 1 w (reconcileSecret r m s w).2 := by
  rcases reconcileSecret_shape r m s w with ⟨out, h⟩ | ⟨gvk, -, h⟩ <;> rw [h]
  · exact Frame.refl _ _
  · exact ensure_frame r _ w _ 1 (le_refl _) (fun w1 => reconcilePVC_frame r m s w1)

theorem Reconcile_shape (r : MySQLReconciler) (req : Request) (w : World) :
    (∃ out, Reconcile r req w =
        (out, { cluster := w.cluster
                trace := w.trace ++ [Call.getMySQL req.Namespace req.Name] })) ∨
      ∃ m, (r.GetMySQL w req.Namespace req.Name).1 = .ok m ∧
        Reconcile r req w =
          reconcileSecret r m (sanitizeName m.Name)
            { cluster := w.cluster, trace := w.trace ++ [Call.getMySQL req.Namespace req.Name] } := by
  unfold Reconcile MySQLReconciler.GetMySQL
  cases hc : r.Client (Call.getMySQL req.Namespace req.Name) with
  | some err =>
    left
    by_cases hnf : IsNotFound err = true
    · exact ⟨.returned Result.empty none, by simp [hnf]⟩
    · exact ⟨.returned Result.empty (some err), by simp [hnf]⟩
  | none =>
    cases hl : w.cluster.lookupMySQL req.Namespace req.Name with
    | some m => exact Or.inr ⟨m, rfl, rfl⟩
    | none => exact Or.inl ⟨.returned Result.empty none, by simp [IsNotFound]⟩

theorem Reconcile_frame (r : MySQLReconciler) (req : Request) (w : World) :
    Frame 0 w (Reconcile r req w).2 := by
  rcases Reconcile_shape r req w with ⟨out, h⟩ | ⟨m, -, h⟩ <;> rw [h]
  · exact Frame.call 0 (Call.getMySQL req.Namespace req.Name) w.cluster w.trace _ (Nat.zero_le _)
      (Frame.refl _ _)
  · exact Frame.call 0 (Call.getMySQL req.Namespace req.Name) w.cluster w.trace _ (Nat.zero_le _)
      (reconcileSecret_frame r m _ _)

/-! ## Lemmas: a pass over dependents that all exist -/

theorem lookup_congr (c c' : Cluster) (h : c.objects = c'.objects) (k : Kind) (ns name : String) :
    c.lookup k ns name = c'.lookup k ns name := by
  unfold Cluster.lookup
  rw [h]

theorem ensure_objects_fixed (r : MySQLReconciler) (obj : Object) (w : World)
    (next : World → Outcome × World)
    (hpres : (w.cluster.lookup obj.kind obj.meta.Namespace obj.meta.Name).isSome)
    (hnext : ∀ w1, w1.cluster.objects = w.cluster.objects →
      (next w1).2.cluster.objects = w.cluster.objects) :
    (ensure r obj w next).2.cluster.objects = w.cluster.objects := by
  rcases ensure_cases r obj w next with h | ⟨e, h⟩ | ⟨habs, h⟩
  · rw [h]; exact hnext _ rfl
  · rw [h]
  · rw [habs] at hpres
    cases hpres

theorem reconcileStatus_objects (r : MySQLReconciler) (m : MySQL) (w : World) :
    (reconcileStatus r m w).2.cluster.objects = w.cluster.objects := by
  rcases reconcileStatus_cases r m w with ⟨e, h⟩ | h <;> rw [h]
  rfl

theorem reconcileService_objects (r : MySQLReconciler) (m : MySQL) (s : String) (w : World)
    (hV : (w.cluster.lookup Kind.Service m.Namespace (s ++ "-service")).isSome) :
    (reconcileService r m s w).2.cluster.objects = w.cluster.objects := by
  rcases reconcileService_shape r m s w with ⟨out, h⟩ | ⟨gvk, -, h⟩ <;> rw [h]
  exact ensure_objects_fixed r _ w _ hV (fun w1 h1 => by rw [← h1]; exact reconcileStatus_objects r m w1)

theorem reconcileDeployment_objects (r : MySQLReconciler) (m : MySQL) (s : String) (w : World)
    (hD : (w.cluster.lookup Kind.Deployment m.Namespace s).isSome)
    (hV : (w.cluster.lookup Kind.Service m.Namespace (s ++ "-service")).isSome) :
    (reconcileDeployment r m s w).2.cluster.objects = w.cluster.objects := by
  rcases reconcileDeployment_shape r m s w with ⟨out, h⟩ | ⟨gvk, -, h⟩ <;> rw [h]
  exact ensure_objects_fixed r _ w _ hD (fun w1 h1 => by
    rw [← h1]
    exact reconcileService_objects r m s w1 (by rw [lookup_congr _ _ h1]; exact hV))

theorem reconcilePVC_objects (r : MySQLReconciler) (m : MySQL) (s : String) (w : World)
    (hP : (w.cluster.lookup Kind.PersistentVolumeClaim m.Namespace (s ++ "-pvc")).isSome)
    (hD : (w.cluster.lookup Kind.Deployment m.Namespace s).isSome)
    (hV : (w.cluster.lookup Kind.Service m.Namespace (s ++ "-service")).isSome) :
    (reconcilePVC r m s w).2.cluster.objects = w.cluster.objects := by
  rcases reconcilePVC_shape r m s w with ⟨msg, -, h⟩ | ⟨e, h⟩ | ⟨gvk, pvc, -, hp, h⟩ <;> rw [h]
  have hmeta := pvcForMySQL_meta _ _ _ _ hp
  have hP' : (w.cluster.lookup ((Object.pvc pvc).owned (controllerRef gvk m)).kind
      ((Object.pvc pvc).owned (controllerRef gvk m)).meta.Namespace
      ((Object.pvc pvc).owned (controllerRef gvk m)).meta.Name).isSome := by
    rw [owned_kind, owned_namespace, owned_name]
    simp only [Object.kind, Object.meta, hmeta, objectMeta]
    exact hP
  exact ensure_objects_fixed r _ w _ hP' (fun w1 h1 => by
    rw [← h1]
    exact reconcileDeployment_objects r m s w1 (by rw [lookup_congr _ _ h1]; exact hD)
      (by rw [lookup_congr _ _ h1]; exact hV))

theorem reconcileSecret_objects (r : MySQLReconciler) (m : MySQL) (s : String) (w : World)
    (hS : (w.cluster.lookup Kind.Secret m.Namespace (s ++ "-secret")).isSome)
    (hP : (w.cluster.lookup Kind.PersistentVolumeClaim m.Namespace (s ++ "-pvc")).isSome)
    (hD : (w.cluster.lookup Kind.Deployment m.Namespace s).isSome)
    (hV : (w.cluster.lookup Kind.Service m.Namespace (s ++ "-service")).isSome) :
    (reconcileSecret r m s w).2.cluster.objects = w.cluster.objects := by
  rcases reconcileSecret_shape r m s w with ⟨out, h⟩ | ⟨gvk, -, h⟩ <;> rw [h]
  exact ensure_objects_fixed r _ w _ hS (fun w1 h1 => by
    rw [← h1]
    exact reconcilePVC_objects r m s w1 (by rw [lookup_congr _ _ h1]; exact hP)
      (by rw [lookup_congr _ _ h1]; exact hD) (by rw [lookup_congr _ _ h1]; exact hV))

/-- C3: for every reconciler (whatever failures its client injects), request
and store, every dependent the store holds before a pass is found unchanged by
the same lookup after it; the pass only appends objects whose keys were free;
its calls come in strictly increasing position of the fixed order (fetch, then
lookup and create per kind, then status update), hence at most one lookup and
one create per kind and one status update, and no other call exists.  In
particular, when the four dependents of the fetched resource exist, the
stored dependents after the pass are those before it, whatever its Spec. -/
theorem Reconcile_keeps_dependents (r : MySQLReconciler) (req : Request) (w : World) :
    (∀ k ns n o, w.cluster.lookup k ns n = some o →
        (Reconcile r req w).2.cluster.lookup k ns n = some o) ∧
      (∃ added calls, (Reconcile r req w).2.cluster.objects = w.cluster.objects ++ added ∧
        (∀ o ∈ added, w.cluster.lookup o.kind o.meta.Namespace o.meta.Name = none) ∧
        (Reconcile r req w).2.trace = w.trace ++ calls ∧
        (calls.map Call.rank).Pairwise (· < ·) ∧ (calls.map Call.rank).Nodup) ∧
      (∀ m, (r.GetMySQL w req.Namespace req.Name).1 = .ok m →
        (w.cluster.lookup Kind.Secret m.Namespace (sanitizeName m.Name ++ "-secret")).isSome →
        (w.cluster.lookup Kind.PersistentVolumeClaim m.Namespace
          (sanitizeName m.Name ++ "-pvc")).isSome →
        (w.cluster.lookup Kind.Deployment m.Namespace (sanitizeName m.Name)).isSome →
        (w.cluster.lookup Kind.Service m.Namespace (sanitizeName m.Name ++ "-service")).isSome →
        (Reconcile r req w).2.cluster.objects = w.cluster.objects) := by
  obtain ⟨added, calls, ho, ht, ha, hp, -⟩ := Reconcile_frame r req w
  refine ⟨?_, ⟨added, calls, ho, ha, ht, hp, ?_⟩, ?_⟩
  · intro k ns n o h
    unfold Cluster.lookup at h ⊢
    rw [ho]
    exact find_append_of_some _ _ _ _ h
  · exact hp.imp (fun h => Nat.ne_of_lt h)
  · intro m hfetch hS hP hD hV
    rcases Reconcile_shape r req w with ⟨out, h⟩ | ⟨m', hfetch', h⟩
    · rw [h]
    · rw [hfetch] at hfetch'
      cases hfetch'
      rw [h]
      exact reconcileSecret_objects r m _ _ hS hP hD hV

theorem Reconcile_keeps_dependents_witness :
    (Reconcile sampleReconciler sampleRequest { cluster := editedCluster, trace := [] }).2.cluster.objects
      = convergedCluster.objects :=
  (Reconcile_keeps_dependents sampleReconciler sampleRequest
    { cluster := editedCluster, trace := [] }).2.2 editedMySQL rfl (by decide) (by decide)
    (by decide) (by decide)

/-! ## Lemmas: a pass whose lookups are answered by the store -/

theorem ensure_answered (r : MySQLReconciler) (obj : Object) (w : World)
    (next : World → Outcome × World)
    (hg : r.Client (Call.get obj.kind obj.meta.Namespace obj.meta.Name) = none) :
    (∃ e w', ensure r obj w next = (.returned Result.empty (some e), w')) ∨
      ∃ t, ensure r obj w next = next { cluster := w.cluster.ensured obj, trace := t } := by
  cases hc : r.Client (Call.create obj) with
  | none => exact Or.inr ⟨_, ensure_ok r obj w next hg hc⟩
  | some e =>
    cases hl : w.cluster.lookup obj.kind obj.meta.Namespace obj.meta.Name with
    | none => exact Or.inl ⟨e, _, ensure_create_fails r obj w next e hg hl hc⟩
    | some x =>
      right
      refine ⟨w.trace ++ [Call.get obj.kind obj.meta.Namespace obj.meta.Name], ?_⟩
      rw [ensured_of_present w.cluster obj (by rw [hl]; rfl)]
      unfold ensure MySQLReconciler.Get
      simp only [hg, hl]

theorem ensured_lookup_new (c : Cluster) (o : Object)
    (h : c.lookup o.kind o.meta.Namespace o.meta.Name = none) :
    (c.ensured o).lookup o.kind o.meta.Namespace o.meta.Name = some o := by
  rw [ensured_of_absent c o h]
  unfold Cluster.lookup at h ⊢
  simp [List.find?_append, h, hasKey_self]

theorem afterPass_lookup_new (c : Cluster) (s p d v : Object) (hsp : s.kind ≠ p.kind)
    (hsd : s.kind ≠ d.kind) (hsv : s.kind ≠ v.kind) (hpd : p.kind ≠ d.kind)
    (hpv : p.kind ≠ v.kind) (hdv : d.kind ≠ v.kind) :
    (c.lookup s.kind s.meta.Namespace s.meta.Name = none →
        (c.afterPass s p d v).lookup s.kind s.meta.Namespace s.meta.Name = some s) ∧
      (c.lookup p.kind p.meta.Namespace p.meta.Name = none →
        (c.afterPass s p d v).lookup p.kind p.meta.Namespace p.meta.Name = some p) ∧
      (c.lookup d.kind d.meta.Namespace d.meta.Name = none →
        (c.afterPass s p d v).lookup d.kind d.meta.Namespace d.meta.Name = some d) ∧
      (c.lookup v.kind v.meta.Namespace v.meta.Name = none →
        (c.afterPass s p d v).lookup v.kind v.meta.Namespace v.meta.Name = some v) := by
  unfold Cluster.afterPass
  refine ⟨fun h => ?_, fun h => ?_, fun h => ?_, fun h => ?_⟩
  · exact ensured_lookup_mono _ _ _ _ _ _ (ensured_lookup_mono _ _ _ _ _ _
      (ensured_lookup_mono _ _ _ _ _ _ (ensured_lookup_new c s h)))
  · refine ensured_lookup_mono _ _ _ _ _ _ (ensured_lookup_mono _ _ _ _ _ _
      (ensured_lookup_new _ p ?_))
    rw [ensured_lookup_of_kind_ne _ _ _ _ _ hsp]
    exact h
  · refine ensured_lookup_mono _ _ _ _ _ _ (ensured_lookup_new _ d ?_)
    rw [ensured_lookup_of_kind_ne _ _ _ _ _ hpd, ensured_lookup_of_kind_ne _ _ _ _ _ hsd]
    exact h
  · refine ensured_lookup_new _ v ?_
    rw [ensured_lookup_of_kind_ne _ _ _ _ _ hdv, ensured_lookup_of_kind_ne _ _ _ _ _ hpv,
      ensured_lookup_of_kind_ne _ _ _ _ _ hsv]
    exact h

theorem reconcileStatus_success (r : MySQLReconciler) (m : MySQL) (w : World)
    (hsucc : (reconcileStatus r m w).1 = .returned Result.empty none) :
    (reconcileStatus r m w).2.cluster = w.cluster.withStatus m.running := by
  rcases reconcileStatus_cases r m w with ⟨e, h⟩ | h
  · rw [h] at hsucc; cases hsucc
  · rw [h]

theorem reconcileService_success (r : MySQLReconciler) (m : MySQL) (s : String) (w : World)
    (gvk : GroupVersionKind) (hs : r.Scheme.MySQL = some gvk)
    (hget : ∀ k ns n, r.Client (Call.get k ns n) = none)
    (hsucc : (reconcileService r m s w).1 = .returned Result.empty none) :
    (reconcileService r m s w).2.cluster =
      (w.cluster.ensured ((Object.service (serviceForMySQL m s)).owned (controllerRef gvk m))).withStatus
        m.running := by
  rw [reconcileService_eq r m s w gvk hs] at hsucc ⊢
  rcases ensure_answered r _ w (reconcileStatus r m) (hget _ _ _) with ⟨e, w', h⟩ | ⟨t, h⟩
  · rw [h] at hsucc; cases hsucc
  · rw [h] at hsucc ⊢
    exact reconcileStatus_success r m _ hsucc

theorem reconcileDeployment_success (r : MySQLReconciler) (m : MySQL) (s : String) (w : World)
    (gvk : GroupVersionKind) (hs : r.Scheme.MySQL = some gvk)
    (hget : ∀ k ns n, r.Client (Call.get k ns n) = none)
    (hsucc : (reconcileDeployment r m s w).1 = .returned Result.empty none) :
    (reconcileDeployment r m s w).2.cluster =
      ((w.cluster.ensured ((Object.deployment (deploymentForMySQL m s)).owned (controllerRef gvk m))).ensured
        ((Object.service (serviceForMySQL m s)).owned (controllerRef gvk m))).withStatus m.running := by
  rw [reconcileDeployment_eq r m s w gvk hs] at hsucc ⊢
  rcases ensure_answered r _ w (reconcileService r m s) (hget _ _ _) with ⟨e, w', h⟩ | ⟨t, h⟩
  · rw [h] at hsucc; cases hsucc
  · rw [h] at hsucc ⊢
    exact reconcileService_success r m s _ gvk hs hget hsucc

theorem reconcilePVC_success (r : MySQLReconciler) (m : MySQL) (s : String) (w : World)
    (gvk : GroupVersionKind) (hs : r.Scheme.MySQL = some gvk)
    (hget : ∀ k ns n, r.Client (Call.get k ns n) = none)
    (hsucc : (reconcilePVC r m s w).1 = .returned Result.empty none) :
    ∃ pvc, pvcForMySQL r.ParseQuantity m s = .value pvc ∧
      (reconcilePVC r m s w).2.cluster =
        (((w.cluster.ensured ((Object.pvc pvc).owned (controllerRef gvk m))).ensured
          ((Object.deployment (deploymentForMySQL m s)).owned (controllerRef gvk m))).ensured
          ((Object.service (serviceForMySQL m s)).owned (controllerRef gvk m))).withStatus
          m.running := by
  rcases reconcilePVC_shape r m s w with ⟨msg, -, h⟩ | ⟨e, h⟩ | ⟨gvk', pvc, hs', hp, h⟩
  · rw [h] at hsucc; cases hsucc
  · rw [h] at hsucc; cases hsucc
  rw [hs] at hs'
  cases hs'
  refine ⟨pvc, hp, ?_⟩
  rw [h] at hsucc ⊢
  rcases ensure_answered r _ w (reconcileDeployment r m s) (hget _ _ _) with ⟨e, w', h⟩ | ⟨t, h⟩
  · rw [h] at hsucc; cases hsucc
  · rw [h] at hsucc ⊢
    exact reconcileDeployment_success r m s _ gvk hs hget hsucc

theorem reconcileSecret_success (r : MySQLReconciler) (m : MySQL) (s : String) (w : World)
    (hget : ∀ k ns n, r.Client (Call.get k ns n) = none)
    (hsucc : (reconcileSecret r m s w).1 = .returned Result.empty none) :
    ∃ gvk pvc, r.Scheme.MySQL = some gvk ∧ pvcForMySQL r.ParseQuantity m s = .value pvc ∧
      (reconcileSecret r m s w).2.cluster =
        (w.cluster.afterPass ((Object.secret (secretForMySQL m s)).owned (controllerRef gvk m))
          ((Object.pvc pvc).owned (controllerRef gvk m))
          ((Object.deployment (deploymentForMySQL m s)).owned (controllerRef gvk m))
          ((Object.service (serviceForMySQL m s)).owned (controllerRef gvk m))).withStatus
          m.running := by
  rcases reconcileSecret_shape r m s w with ⟨e, h⟩ | ⟨gvk, hs, h⟩
  · rw [h] at hsucc; cases hsucc
  rw [h] at hsucc ⊢
  rcases ensure_answered r _ w (reconcilePVC r m s) (hget _ _ _) with ⟨e, w', h⟩ | ⟨t, h⟩
  · rw [h] at hsucc; cases hsucc
  · rw [h] at hsucc ⊢
    obtain ⟨pvc, hp, hc⟩ := reconcilePVC_success r m s _ gvk hs hget hsucc
    exact ⟨gvk, pvc, hs, hp, hc⟩

theorem Reconcile_answered_success (r : MySQLReconciler) (req : Request) (w : World) (m : MySQL)
    (hfetch : r.Client (Call.getMySQL req.Namespace req.Name) = none)
    (hm : w.cluster.lookupMySQL req.Namespace req.Name = some m)
    (hget : ∀ k ns n, r.Client (Call.get k ns n) = none)
    (hsucc : (Reconcile r req w).1 = .returned Result.empty none) :
    ∃ gvk pvc, r.Scheme.MySQL = some gvk ∧
      pvcForMySQL r.ParseQuantity m (sanitizeName m.Name) = .value pvc ∧
      (Reconcile r req w).2.cluster =
        (w.cluster.afterPass (secretObject gvk m) (pvcObject gvk m pvc) (deploymentObject gvk m)
          (serviceObject gvk m)).withStatus m.running := by
  rw [Reconcile_fetched r req w m hfetch hm] at hsucc ⊢
  exact reconcileSecret_success r m _ _ hget hsucc

/-- C7, as stated, fails: a Secret that is in the store before the pass under
the name the pass uses, without owner reference, is still without one after a
pass that returns no error. -/
theorem stray_secret_stays_unowned :
    (Reconcile sampleReconciler sampleRequest { cluster := strayCluster, trace := [] }).1
        = .returned Result.empty none ∧
      ((Reconcile sampleReconciler sampleRequest
          { cluster := strayCluster, trace := [] }).2.cluster.lookup
            Kind.Secret "ns1" "sample-db-secret").map (fun o => o.meta.OwnerReferences)
        = some [] := by
  decide

/-- C7, amended: for a stored MySQL resource that the fetch returns, when every
dependent lookup of the pass is answered by the store and the pass returns no
error, each of the four dependents named from the sanitized name exists in the
namespace of the resource after the pass, and each one that did not exist
before the pass is the object the pass built, whose only owner reference is the
controller reference to the resource (name, UID, controller flag set). -/
theorem Reconcile_success_dependents (r : MySQLReconciler) (req : Request) (w : World)
    (m : MySQL)
    (hfetch : r.Client (Call.getMySQL req.Namespace req.Name) = none)
    (hm : w.cluster.lookupMySQL req.Namespace req.Name = some m)
    (hget : ∀ k ns n, r.Client (Call.get k ns n) = none)
    (hsucc : (Reconcile r req w).1 = .returned Result.empty none) :
    ∃ gvk pvc, r.Scheme.MySQL = some gvk ∧
      pvcForMySQL r.ParseQuantity m (sanitizeName m.Name) = .value pvc ∧
      (((Reconcile r req w).2.cluster.lookup Kind.Secret m.Namespace
          (sanitizeName m.Name ++ "-secret")).isSome ∧
        ((Reconcile r req w).2.cluster.lookup Kind.PersistentVolumeClaim m.Namespace
          (sanitizeName m.Name ++ "-pvc")).isSome ∧
        ((Reconcile r req w).2.cluster.lookup Kind.Deployment m.Namespace
          (sanitizeName m.Name)).isSome ∧
        ((Reconcile r req w).2.cluster.lookup Kind.Service m.Namespace
          (sanitizeName m.Name ++ "-service")).isSome) ∧
      ((w.cluster.lookup Kind.Secret m.Namespace (sanitizeName m.Name ++ "-secret") = none →
          (Reconcile r req w).2.cluster.lookup Kind.Secret m.Namespace
            (sanitizeName m.Name ++ "-secret") = some (secretObject gvk m)) ∧
        (w.cluster.lookup Kind.PersistentVolumeClaim m.Namespace (sanitizeName m.Name ++ "-pvc")
            = none →
          (Reconcile r req w).2.cluster.lookup Kind.PersistentVolumeClaim m.Namespace
            (sanitizeName m.Name ++ "-pvc") = some (pvcObject gvk m pvc)) ∧
        (w.cluster.lookup Kind.Deployment m.Namespace (sanitizeName m.Name) = none →
          (Reconcile r req w).2.cluster.lookup Kind.Deployment m.Namespace (sanitizeName m.Name)
            = some (deploymentObject gvk m)) ∧
        (w.cluster.lookup Kind.Service m.Namespace (sanitizeName m.Name ++ "-service") = none →
          (Reconcile r req w).2.cluster.lookup Kind.Service m.Namespace
            (sanitizeName m.Name ++ "-service") = some (serviceObject gvk m))) ∧
      ∀ o ∈ [secretObject gvk m, pvcObject gvk m pvc, deploymentObject gvk m,
          serviceObject gvk m],
        o.meta.Namespace = m.Namespace ∧
          o.meta.OwnerReferences =
            [{ APIVersion := gvk.apiVersion, Kind := gvk.Kind, Name := m.Name, UID := m.UID,
               Controller := some true, BlockOwnerDeletion := some true }] := by
  obtain ⟨gvk, pvc, hs, hp, hc⟩ := Reconcile_answered_success r req w m hfetch hm hget hsucc
  have hpm := pvcForMySQL_meta _ _ _ _ hp
  have kS : (secretObject gvk m).kind = Kind.Secret ∧ (secretObject gvk m).meta.Namespace
      = m.Namespace ∧ (secretObject gvk m).meta.Name = sanitizeName m.Name ++ "-secret" :=
    ⟨rfl, rfl, rfl⟩
  have kP : (pvcObject gvk m pvc).kind = Kind.PersistentVolumeClaim ∧
      (pvcObject gvk m pvc).meta.Namespace = m.Namespace ∧
      (pvcObject gvk m pvc).meta.Name = sanitizeName m.Name ++ "-pvc" := by
    unfold pvcObject
    rw [owned_kind, owned_namespace, owned_name]
    simp [Object.kind, Object.meta, hpm, objectMeta]
  have kD : (deploymentObject gvk m).kind = Kind.Deployment ∧
      (deploymentObject gvk m).meta.Namespace = m.Namespace ∧
      (deploymentObject gvk m).meta.Name = sanitizeName m.Name :=
    ⟨rfl, rfl, rfl⟩
  have kV : (serviceObject gvk m).kind = Kind.Service ∧
      (serviceObject gvk m).meta.Namespace = m.Namespace ∧
      (serviceObject gvk m).meta.Name = sanitizeName m.Name ++ "-service" :=
    ⟨rfl, rfl, rfl⟩
  have hpres := afterPass_present w.cluster (secretObject gvk m) (pvcObject gvk m pvc)
    (deploymentObject gvk m) (serviceObject gvk m)
  have hnew := afterPass_lookup_new w.cluster (secretObject gvk m) (pvcObject gvk m pvc)
    (deploymentObject gvk m) (serviceObject gvk m) (by rw [kS.1, kP.1]; decide)
    (by rw [kS.1, kD.1]; decide) (by rw [kS.1, kV.1]; decide) (by rw [kP.1, kD.1]; decide)
    (by rw [kP.1, kV.1]; decide) (by rw [kD.1, kV.1]; decide)
  rw [kS.1, kS.2.1, kS.2.2, kP.1, kP.2.1, kP.2.2, kD.1, kD.2.1, kD.2.2, kV.1, kV.2.1,
    kV.2.2] at hpres hnew
  refine ⟨gvk, pvc, hs, hp, ?_, ?_, ?_⟩
  · rw [hc]
    exact hpres
  · rw [hc]
    exact hnew
  · intro o ho
    simp only [List.mem_cons, List.mem_singleton, List.not_mem_nil, or_false] at ho
    rcases ho with rfl | rfl | rfl | rfl
    · exact ⟨kS.2.1, rfl⟩
    · exact ⟨kP.2.1, owned_ownerReferences _ _⟩
    · exact ⟨kD.2.1, rfl⟩
    · exact ⟨kV.2.1, rfl⟩

theorem Reconcile_success_dependents_witness :
    ((Reconcile sampleReconciler sampleRequest { cluster := strayCluster, trace := [] }).2.cluster.lookup
        Kind.Service "ns1" "sample-db-service").isSome := by
  obtain ⟨gvk, pvc, -, -, ⟨-, -, -, h⟩, -⟩ :=
    Reconcile_success_dependents sampleReconciler sampleRequest
      { cluster := strayCluster, trace := [] } sampleMySQL rfl (by decide) (fun _ _ _ => rfl)
      (by decide)
  exact h

/-! ## Theorems: failures inside a pass -/

/-- C1, on the code: the lookup of the Secret fails with an error that is not
NotFound, and Reconcile does not return it: the pass goes on with the lookups
and creates of the other three dependents and the status update, returns no
error, writes the status Running, and leaves the store without the Secret. -/
theorem lookup_error_is_swallowed :
    (Reconcile lookupErrorReconciler sampleRequest
        { cluster := { mysqls := [sampleMySQL], objects := [] }, trace := [] }).1
        = .returned Result.empty none ∧
      (Reconcile lookupErrorReconciler sampleRequest
        { cluster := { mysqls := [sampleMySQL], objects := [] }, trace := [] }).2.trace.map Call.rank
        = [0, 1, 3, 4, 5, 6, 7, 8, 9] ∧
      (Reconcile lookupErrorReconciler sampleRequest
        { cluster := { mysqls := [sampleMySQL], objects := [] }, trace := [] }).2.cluster.mysqls
        = [sampleMySQL.running] ∧
      (Reconcile lookupErrorReconciler sampleRequest
        { cluster := { mysqls := [sampleMySQL], objects := [] }, trace := [] }).2.cluster.lookup
          Kind.Secret "ns1" "sample-db-secret" = none := by
  decide

/-- C6, as stated, fails: for a storage size the parser rejects, pvcForMySQL
panics and the pass ends in that panic; Reconcile returns no error value. -/
theorem bad_storageSize_panics :
    pvcForMySQL sampleParse badSizeMySQL "sample-db" = .panics "cannot parse quantity: lots" ∧
      (Reconcile sampleReconciler sampleRequest
        { cluster := { mysqls := [badSizeMySQL], objects := [] }, trace := [] }).1
        = .panicked "cannot parse quantity: lots" ∧
      ¬ ∃ res err, (Reconcile sampleReconciler sampleRequest
        { cluster := { mysqls := [badSizeMySQL], objects := [] }, trace := [] }).1
        = .returned res (some err) := by
  refine ⟨by decide, by decide, ?_⟩
  rintro ⟨res, err, h⟩
  have hp : (Reconcile sampleReconciler sampleRequest
      { cluster := { mysqls := [badSizeMySQL], objects := [] }, trace := [] }).1
      = .panicked "cannot parse quantity: lots" := by decide
  rw [hp] at h
  cases h

/-- C6, amended: for a MySQL resource the fetch returns whose storage size the
parser rejects, pvcForMySQL panics instead of returning an error.  The pass
never succeeds: it ends in that panic, or earlier with an error returned by the
Secret step; it ends in the panic whenever the scheme is registered and the
lookup and the create of the Secret do not fail.  In every case the calls of
the pass stop at the Secret step (no lookup or create for the other kinds, no
status update) and the stored MySQL resources are untouched. -/
theorem Reconcile_bad_storageSize (r : MySQLReconciler) (req : Request) (w : World) (m : MySQL)
    (hfetch : r.Client (Call.getMySQL req.Namespace req.Name) = none)
    (hm : w.cluster.lookupMySQL req.Namespace req.Name = some m)
    (hq : r.ParseQuantity m.Spec.StorageSize = none) :
    ∃ msg, pvcForMySQL r.ParseQuantity m (sanitizeName m.Name) = .panics msg ∧
      ((Reconcile r req w).1 = .panicked msg ∨
        ∃ e, (Reconcile r req w).1 = .returned Result.empty (some e)) ∧
      (∀ gvk, r.Scheme.MySQL = some gvk →
        r.Client (Call.get Kind.Secret m.Namespace (sanitizeName m.Name ++ "-secret")) = none →
        r.Client (Call.create (secretObject gvk m)) = none →
        (Reconcile r req w).1 = .panicked msg) ∧
      (Reconcile r req w).2.cluster.mysqls = w.cluster.mysqls ∧
      ∃ calls, (Reconcile r req w).2.trace = w.trace ++ calls ∧ ∀ c ∈ calls, c.rank ≤ 2 := by
  have hp : pvcForMySQL r.ParseQuantity m (sanitizeName m.Name)
      = .panics ("cannot parse quantity: " ++ m.Spec.StorageSize) := by
    simp [pvcForMySQL, MustParse, hq]
  refine ⟨_, hp, ?_⟩
  rw [Reconcile_fetched r req w m hfetch hm]
  have hpanic := fun w1 => reconcilePVC_panics r m (sanitizeName m.Name) w1 _ hp
  have hthird : ∀ gvk, r.Scheme.MySQL = some gvk →
      r.Client (Call.get Kind.Secret m.Namespace (sanitizeName m.Name ++ "-secret")) = none →
      r.Client (Call.create (secretObject gvk m)) = none →
      (reconcileSecret r m (sanitizeName m.Name)
        { w with trace := w.trace ++ [Call.getMySQL req.Namespace req.Name] }).1
        = .panicked ("cannot parse quantity: " ++ m.Spec.StorageSize) := by
    intro gvk hs hg hc
    rw [reconcileSecret_eq r m _ _ gvk hs,
      ensure_ok r ((Object.secret (secretForMySQL m (sanitizeName m.Name))).owned
        (controllerRef gvk m)) _ _ hg hc, hpanic]
  rcases reconcileSecret_shape r m (sanitizeName m.Name)
    { w with trace := w.trace ++ [Call.getMySQL req.Namespace req.Name] } with ⟨e, h⟩ | ⟨gvk, hs, h⟩
  · refine ⟨?_, hthird, ?_, [Call.getMySQL req.Namespace req.Name], ?_, ?_⟩
    · rw [h]; exact Or.inr ⟨e, rfl⟩
    · rw [h]
    · rw [h]
    · intro c hc
      rw [List.mem_singleton.mp hc]
      exact Nat.zero_le _
  · refine ⟨?_, hthird, ?_⟩
    · rw [h]
      rcases ensure_cases r _ { w with trace := w.trace ++ [Call.getMySQL req.Namespace req.Name] }
        (reconcilePVC r m (sanitizeName m.Name)) with h' | ⟨e, h'⟩ | ⟨-, h'⟩
      · rw [h', hpanic]; exact Or.inl rfl
      · rw [h']; exact Or.inr ⟨e, rfl⟩
      · rw [h', hpanic]; exact Or.inl rfl
    · rw [h]
      rcases ensure_cases r _ { w with trace := w.trace ++ [Call.getMySQL req.Namespace req.Name] }
        (reconcilePVC r m (sanitizeName m.Name)) with h' | ⟨e, h'⟩ | ⟨-, h'⟩
      · rw [h', hpanic]
        refine ⟨rfl, [Call.getMySQL req.Namespace req.Name,
          Call.get Kind.Secret m.Namespace (sanitizeName m.Name ++ "-secret")], ?_, ?_⟩
        · simp only [List.append_assoc]; rfl
        · intro c hc
          simp only [List.mem_cons, List.mem_singleton, List.not_mem_nil, or_false] at hc
          rcases hc with rfl | rfl <;> simp [Call.rank, Kind.rank]
      · rw [h']
        refine ⟨rfl, [Call.getMySQL req.Namespace req.Name,
          Call.get Kind.Secret m.Namespace (sanitizeName m.Name ++ "-secret"),
          Call.create (secretObject gvk m)], ?_, ?_⟩
        · simp only [List.append_assoc]; rfl
        · intro c hc
          simp only [List.mem_cons, List.mem_singleton, List.not_mem_nil, or_false] at hc
          rcases hc with rfl | rfl | rfl
          · simp [Call.rank]
          · simp [Call.rank, Kind.rank]
          · show (2 : Nat) ≤ 2; exact le_refl _
      · rw [h', hpanic]
        refine ⟨rfl, [Call.getMySQL req.Namespace req.Name,
          Call.get Kind.Secret m.Namespace (sanitizeName m.Name ++ "-secret"),
          Call.create (secretObject gvk m)], ?_, ?_⟩
        · simp only [List.append_assoc]; rfl
        · intro c hc
          simp only [List.mem_cons, List.mem_singleton, List.not_mem_nil, or_false] at hc
          rcases hc with rfl | rfl | rfl
          · simp [Call.rank]
          · simp [Call.rank, Kind.rank]
          · show (2 : Nat) ≤ 2; exact le_refl _

theorem Reconcile_bad_storageSize_witness :
    (Reconcile sampleReconciler sampleRequest
        { cluster := { mysqls := [badSizeMySQL], objects := [] }, trace := [] }).2.cluster.mysqls
      = [badSizeMySQL] := by
  obtain ⟨_, -, -, -, h, -⟩ :=
    Reconcile_bad_storageSize sampleReconciler sampleRequest
      { cluster := { mysqls := [badSizeMySQL], objects := [] }, trace := [] } badSizeMySQL rfl
      (by decide) (by decide)
  exact h

/-! ## Theorems: the name and the builders, continued -/

theorem sanitize_char_idem (c : Char) :
    (if (if c = '.' then '-' else c) = '.' then '-' else (if c = '.' then '-' else c))
      = (if c = '.' then '-' else c) := by
  by_cases h : c = '.'
  · simp [h]
  · simp [h]

/-- C11: for every name, sanitizeName keeps the length (in characters and in
bytes), has a dash at every position where the name has a dot and the
character of the name at every other position, so it holds no dot, and
applying it twice gives what applying it once gives.  It is a total function
into strings: no input has an error result. -/
theorem sanitizeName_spec (name : String) :
    (sanitizeName name).length = name.length ∧
      (sanitizeName name).utf8ByteSize = name.utf8ByteSize ∧
      (∀ (i : Nat) (c : Char), name.data[i]? = some c →
        (sanitizeName name).data[i]? = some (if c = '.' then '-' else c)) ∧
      (∀ i : Nat, name.data[i]? = none → (sanitizeName name).data[i]? = none) ∧
      (∀ c ∈ (sanitizeName name).data, c ≠ '.') ∧
      sanitizeName (sanitizeName name) = sanitizeName name := by
  refine ⟨?_, ?_, ?_, ?_, ?_, ?_⟩
  · obtain ⟨l⟩ := name
    show (l.map _).length = l.length
    exact List.length_map _ _
  · obtain ⟨l⟩ := name
    simp only [sanitizeName, String.utf8ByteSize]
    induction l with
    | nil => rfl
    | cons a l ih =>
      simp only [List.map_cons, String.utf8ByteSize.go, ih]
      by_cases h : a = '.'
      · subst h; rfl
      · simp [h]
  · intro i c h
    simp [sanitizeName, List.getElem?_map, h]
  · intro i h
    simp [sanitizeName, List.getElem?_map, h]
  · intro c hc
    simp only [sanitizeName, List.mem_map] at hc
    obtain ⟨a, -, rfl⟩ := hc
    by_cases h : a = '.'
    · simp [h]
    · simp [h]
  · simp only [sanitizeName, List.map_map]
    congr 1
    apply List.map_congr_left
    intro a _
    exact sanitize_char_idem a

/-- C12, on the code: the name `9.db` is a valid resource name (a DNS-1123
subdomain) and its sanitized name `9-db` begins with a digit, so it is no
DNS-1035 label; a valid name of 64 letters is returned as it is, longer than
the 63 characters of a label. -/
theorem sanitizeName_not_dns1035 :
    isDNS1123Subdomain "9.db" = true ∧ sanitizeName "9.db" = "9-db" ∧
      isDNS1035Label (sanitizeName "9.db") = false ∧
      isDNS1123Subdomain longName = true ∧ sanitizeName longName = longName ∧
      isDNS1035Label (sanitizeName longName) = false := by
  decide

/-- C13: for every MySQL resource and name, the Secret built is in the
namespace of the resource and its data is the single entry under the key
root-password, whose value is the root password of the Spec when that is not
empty and the literal changeme when it is; the value stored is never empty. -/
theorem secretForMySQL_spec (m : MySQL) (c : String) :
    (secretForMySQL m c).Namespace = m.Namespace ∧
      (secretForMySQL m c).StringData =
        [("root-password", if m.Spec.RootPassword = "" then "changeme" else m.Spec.RootPassword)] ∧
      (m.Spec.RootPassword ≠ "" →
        (secretForMySQL m c).StringData = [("root-password", m.Spec.RootPassword)]) ∧
      (m.Spec.RootPassword = "" →
        (secretForMySQL m c).StringData = [("root-password", "changeme")]) ∧
      ∀ kv ∈ (secretForMySQL m c).StringData, kv.1 = "root-password" ∧ kv.2 ≠ "" := by
  refine ⟨rfl, rfl, ?_, ?_, ?_⟩
  · intro h
    simp [secretForMySQL, h]
  · intro h
    simp [secretForMySQL, h]
  · intro kv hkv
    simp only [secretForMySQL, List.mem_singleton] at hkv
    subst hkv
    refine ⟨rfl, ?_⟩
    by_cases h : m.Spec.RootPassword = ""
    · simp [h]
    · simp [h]

theorem secretForMySQL_spec_witness :
    (secretForMySQL sampleMySQL "sample-db").StringData = [("root-password", "changeme")] ∧
      (secretForMySQL passwordMySQL "sample-db").StringData = [("root-password", "mysql")] :=
  ⟨(secretForMySQL_spec sampleMySQL "sample-db").2.2.2.1 rfl,
    (secretForMySQL_spec passwordMySQL "sample-db").2.2.1 (by decide)⟩

/-- C14: for every MySQL resource whose storage size the parser accepts and
every name c, the claim built is named c-pvc and requests exactly the quantity
parsed, with the single access mode ReadWriteOnce; the Secret built is named
c-secret; the Deployment built is named c and has one replica and exactly one
container, with image mysql: followed by the version, the one container port
3306 and the one volume mount at /var/lib/mysql; the Service built is named
c-service, of type ClusterIP, with the one port 3306 over TCP; all four are in
the namespace of the resource. -/
theorem builders_shape (parse : String → Option Quantity) (m : MySQL) (c : String) (q : Quantity)
    (hq : parse m.Spec.StorageSize = some q) :
    (∃ pvc, pvcForMySQL parse m c = .value pvc ∧ pvc.Name = c ++ "-pvc" ∧
        pvc.Namespace = m.Namespace ∧
        pvc.Spec = { AccessModes := [PersistentVolumeAccessMode.ReadWriteOnce]
                     Resources := { Requests := [("storage", q)] } }) ∧
      ((secretForMySQL m c).Name = c ++ "-secret" ∧
        (secretForMySQL m c).Namespace = m.Namespace) ∧
      ((deploymentForMySQL m c).Name = c ∧ (deploymentForMySQL m c).Namespace = m.Namespace ∧
        (deploymentForMySQL m c).Spec.Replicas = some 1 ∧
        (deploymentForMySQL m c).Spec.Template.Spec.Containers.map
            (fun k => (k.Image, k.Ports, k.VolumeMounts)) =
          [("mysql:" ++ m.Spec.Version, [{ ContainerPort := 3306, Name := "mysql" }],
            [{ Name := "mysql-data", MountPath := "/var/lib/mysql" }])]) ∧
      ((serviceForMySQL m c).Name = c ++ "-service" ∧
        (serviceForMySQL m c).Namespace = m.Namespace ∧
        (serviceForMySQL m c).Spec.Type_ = ServiceType.ServiceTypeClusterIP ∧
        (serviceForMySQL m c).Spec.Ports =
          [{ Port := 3306, Name := "mysql", Protocol := Protocol.ProtocolTCP }]) := by
  refine ⟨?_, ⟨rfl, rfl⟩, ⟨rfl, rfl, rfl, rfl⟩, ⟨rfl, rfl, rfl, rfl⟩⟩
  simp [pvcForMySQL, MustParse, hq, objectMeta]

theorem builders_shape_witness :
    sampleParse sampleMySQL.Spec.StorageSize = some { text := "10Gi" } ∧
      sanitizeName sampleMySQL.Name = "sample-db" ∧
      (∃ pvc, pvcForMySQL sampleParse sampleMySQL "sample-db" = .value pvc ∧
        pvc.Name = "sample-db-pvc" ∧
        pvc.Spec.Resources.Requests = [("storage", { text := "10Gi" })]) ∧
      (secretForMySQL sampleMySQL "sample-db").Name = "sample-db-secret" ∧
      (deploymentForMySQL sampleMySQL "sample-db").Name = "sample-db" ∧
      (deploymentForMySQL sampleMySQL "sample-db").Spec.Template.Spec.Containers.map
          (fun k => k.Image) = ["mysql:8.0"] ∧
      (serviceForMySQL sampleMySQL "sample-db").Name = "sample-db-service" := by
  obtain ⟨⟨pvc, hp, hn, -, hspec⟩, ⟨hs, -⟩, ⟨hd, -, -, -⟩, ⟨hv, -⟩⟩ :=
    builders_shape sampleParse sampleMySQL "sample-db" { text := "10Gi" } (by decide)
  refine ⟨by decide, by decide, ⟨pvc, hp, ?_, ?_⟩, ?_, hd, by decide, ?_⟩
  · rw [hn]; decide
  · rw [hspec]
  · rw [hs]; decide
  · rw [hv]; decide

/-! ## Lemmas: the status step on every path -/

theorem StatusLog.stop (w : World) (res : Outcome × World) (pre : List Call)
    (hm : res.2.cluster.mysqls = w.cluster.mysqls) (ht : res.2.trace = w.trace ++ pre)
    (hpre : ∀ x, Call.statusUpdate x ∉ pre) : StatusLog w res :=
  Or.inl ⟨pre, ht, hpre, hm⟩

theorem StatusLog.of_prefix (w w1 : World) (pre : List Call) (res : Outcome × World)
    (hm : w1.cluster.mysqls = w.cluster.mysqls) (ht : w1.trace = w.trace ++ pre)
    (hpre : ∀ x, Call.statusUpdate x ∉ pre) (h : StatusLog w1 res) : StatusLog w res := by
  have hws : ∀ m' : MySQL, (w1.cluster.withStatus m').mysqls = (w.cluster.withStatus m').mysqls := by
    intro m'
    unfold Cluster.withStatus
    simp only [hm]
  have hmem : ∀ (calls : List Call), (∀ x, Call.statusUpdate x ∉ calls) →
      ∀ x, Call.statusUpdate x ∉ pre ++ calls := by
    intro calls hc x hx
    rcases List.mem_append.mp hx with hx | hx
    · exact hpre x hx
    · exact hc x hx
  rcases h with ⟨calls, htr, hc, hmy⟩ | ⟨calls, m, htr, hc, hcase⟩
  · exact Or.inl ⟨pre ++ calls, by rw [htr, ht, List.append_assoc], hmem calls hc, by rw [hmy, hm]⟩
  · refine Or.inr ⟨pre ++ calls, m, by rw [htr, ht]; simp only [List.append_assoc], hmem calls hc, ?_⟩
    rcases hcase with ⟨hmy, he⟩ | ⟨hmy, he⟩
    · exact Or.inl ⟨by rw [hmy, hm], he⟩
    · exact Or.inr ⟨by rw [hmy, hws], he⟩

theorem reconcileStatus_statusLog (r : MySQLReconciler) (m : MySQL) (w : World) :
    StatusLog w (reconcileStatus r m w) := by
  rcases reconcileStatus_cases r m w with ⟨e, h⟩ | h <;> rw [h]
  · exact Or.inr ⟨[], m, by simp, by simp, Or.inl ⟨rfl, e, rfl⟩⟩
  · exact Or.inr ⟨[], m, by simp, by simp, Or.inr ⟨rfl, rfl⟩⟩

theorem ensure_statusLog (r : MySQLReconciler) (obj : Object) (w : World)
    (next : World → Outcome × World) (hnext : ∀ w1, StatusLog w1 (next w1)) :
    StatusLog w (ensure r obj w next) := by
  rcases ensure_cases r obj w next with h | ⟨e, h⟩ | ⟨-, h⟩ <;> rw [h]
  · exact StatusLog.of_prefix w
      { cluster := w.cluster
        trace := w.trace ++ [Call.get obj.kind obj.meta.Namespace obj.meta.Name] }
      [Call.get obj.kind obj.meta.Namespace obj.meta.Name] _ rfl rfl (by simp) (hnext _)
  · exact StatusLog.stop w _
      [Call.get obj.kind obj.meta.Namespace obj.meta.Name, Call.create obj] rfl
      (by simp) (by simp)
  · exact StatusLog.of_prefix w
      { cluster := { w.cluster with objects := w.cluster.objects ++ [obj] }
        trace := w.trace ++ [Call.get obj.kind obj.meta.Namespace obj.meta.Name] ++
          [Call.create obj] }
      [Call.get obj.kind obj.meta.Namespace obj.meta.Name, Call.create obj] _ rfl
      (by simp) (by simp) (hnext _)

theorem reconcileService_statusLog (r : MySQLReconciler) (m : MySQL) (s : String) (w : World) :
    StatusLog w (reconcileService r m s w) := by
  rcases reconcileService_shape r m s w with ⟨e, h⟩ | ⟨gvk, -, h⟩ <;> rw [h]
  · exact StatusLog.stop w _ [] rfl (by simp) (by simp)
  · exact ensure_statusLog r _ w _ (fun w1 => reconcileStatus_statusLog r m w1)

theorem reconcileDeployment_statusLog (r : MySQLReconciler) (m : MySQL) (s : String)
    (w : World) : StatusLog w (reconcileDeployment r m s w) := by
  rcases reconcileDeployment_shape r m s w with ⟨e, h⟩ | ⟨gvk, -, h⟩ <;> rw [h]
  · exact StatusLog.stop w _ [] rfl (by simp) (by simp)
  · exact ensure_statusLog r _ w _ (fun w1 => reconcileService_statusLog r m s w1)

theorem reconcilePVC_statusLog (r : MySQLReconciler) (m : MySQL) (s : String) (w : World) :
    StatusLog w (reconcilePVC r m s w) := by
  rcases reconcilePVC_shape r m s w with ⟨msg, -, h⟩ | ⟨e, h⟩ | ⟨gvk, pvc, -, -, h⟩ <;> rw [h]
  · exact StatusLog.stop w _ [] rfl (by simp) (by simp)
  · exact StatusLog.stop w _ [] rfl (by simp) (by simp)
  · exact ensure_statusLog r _ w _ (fun w1 => reconcileDeployment_statusLog r m s w1)

theorem reconcileSecret_statusLog (r : MySQLReconciler) (m : MySQL) (s : String) (w : World) :
    StatusLog w (reconcileSecret r m s w) := by
  rcases reconcileSecret_shape r m s w with ⟨e, h⟩ | ⟨gvk, -, h⟩ <;> rw [h]
  · exact StatusLog.stop w _ [] rfl (by simp) (by simp)
  · exact ensure_statusLog r _ w _ (fun w1 => reconcilePVC_statusLog r m s w1)

theorem Reconcile_statusLog (r : MySQLReconciler) (req : Request) (w : World) :
    StatusLog w (Reconcile r req w) := by
  rcases Reconcile_shape r req w with ⟨out, h⟩ | ⟨m, -, h⟩ <;> rw [h]
  · exact StatusLog.stop w _ [Call.getMySQL req.Namespace req.Name] rfl rfl (by simp)
  · exact StatusLog.of_prefix w
      { cluster := w.cluster, trace := w.trace ++ [Call.getMySQL req.Namespace req.Name] }
      [Call.getMySQL req.Namespace req.Name] _ rfl rfl (by simp)
      (reconcileSecret_statusLog r m _ _)

theorem countP_isStatusUpdate_eq_zero (calls : List Call)
    (h : ∀ x, Call.statusUpdate x ∉ calls) : calls.countP Call.isStatusUpdate = 0 := by
  rw [List.countP_eq_zero]
  intro c hc hs
  cases c with
  | statusUpdate x => exact h x hc
  | getMySQL ns n => cases hs
  | get k ns n => cases hs
  | create o => cases hs

theorem withStatus_mem (c : Cluster) (m x : MySQL) (hx : x ∈ (c.withStatus m).mysqls) :
    x ∈ c.mysqls ∨ x.Status = m.Status := by
  unfold Cluster.withStatus at hx
  obtain ⟨y, hy, rfl⟩ := List.mem_map.mp hx
  by_cases hk : (y.Namespace == m.Namespace && y.Name == m.Name) = true
  · right; simp [hk]
  · left; simpa [hk] using hy

/-- C16: in every pass, whatever the reconciler, the request, the store and the
outcomes of the calls, at most one status update is issued, and the status it
carries is phase Running, ready true, message MySQL instance is running (so
never phase Failed or Pending); a pass that issues no status update, and a
pass that does not return success, leave every stored status as it was; after
any pass each stored resource is one stored before or has that status. -/
theorem Reconcile_status (r : MySQLReconciler) (req : Request) (w : World) :
    ∃ calls, (Reconcile r req w).2.trace = w.trace ++ calls ∧
      calls.countP Call.isStatusUpdate ≤ 1 ∧
      (∀ x, Call.statusUpdate x ∈ calls →
        x.Status = { Phase := "Running", Message := "MySQL instance is running", Ready := true } ∧
          x.Status.Phase ≠ "Failed" ∧ x.Status.Phase ≠ "Pending") ∧
      ((∀ x, Call.statusUpdate x ∉ calls) →
        (Reconcile r req w).2.cluster.mysqls = w.cluster.mysqls) ∧
      ((Reconcile r req w).1 ≠ .returned Result.empty none →
        (Reconcile r req w).2.cluster.mysqls = w.cluster.mysqls) ∧
      ∀ x ∈ (Reconcile r req w).2.cluster.mysqls,
        x ∈ w.cluster.mysqls ∨
          x.Status = { Phase := "Running", Message := "MySQL instance is running", Ready := true } := by
  rcases Reconcile_statusLog r req w with ⟨calls, ht, hc, hmy⟩ | ⟨calls, m, ht, hc, hcase⟩
  · refine ⟨calls, ht, ?_, ?_, fun _ => hmy, fun _ => hmy, ?_⟩
    · rw [countP_isStatusUpdate_eq_zero calls hc]
      exact Nat.zero_le _
    · intro x hx
      exact absurd hx (hc x)
    · intro x hx
      rw [hmy] at hx
      exact Or.inl hx
  · refine ⟨calls ++ [Call.statusUpdate m.running], by rw [ht, List.append_assoc], ?_, ?_, ?_, ?_,
      ?_⟩
    · rw [List.countP_append, countP_isStatusUpdate_eq_zero calls hc]
      exact le_refl _
    · intro x hx
      rcases List.mem_append.mp hx with hx | hx
      · exact absurd hx (hc x)
      · have hxe : x = m.running := Call.statusUpdate.inj (List.mem_singleton.mp hx)
        subst hxe
        exact ⟨rfl, by show "Running" ≠ "Failed"; decide, by show "Running" ≠ "Pending"; decide⟩
    · intro hno
      exact absurd (List.mem_append_right _ (List.mem_singleton.mpr rfl)) (hno m.running)
    · intro hne
      rcases hcase with ⟨hmy, -⟩ | ⟨-, he⟩
      · exact hmy
      · exact absurd he hne
    · intro x hx
      rcases hcase with ⟨hmy, -⟩ | ⟨hmy, -⟩
      · rw [hmy] at hx
        exact Or.inl hx
      · rw [hmy] at hx
        exact withStatus_mem _ _ _ hx

theorem Reconcile_status_witness :
    (Reconcile failingDeploymentReconciler sampleRequest
        { cluster := { mysqls := [sampleMySQL], objects := [] }, trace := [] }).2.cluster.mysqls
      = [sampleMySQL] := by
  obtain ⟨calls, -, -, -, -, h, -⟩ :=
    Reconcile_status failingDeploymentReconciler sampleRequest
      { cluster := { mysqls := [sampleMySQL], objects := [] }, trace := [] }
  exact h (by decide)

/-! ## Lemmas: passes on worlds that differ in stored statuses only -/

theorem withoutStatus_parts (w1 w2 : World) (h : w1.withoutStatus = w2.withoutStatus) :
    w1.cluster.mysqls.map MySQL.withoutStatus = w2.cluster.mysqls.map MySQL.withoutStatus ∧
      w1.cluster.objects = w2.cluster.objects ∧ w1.trace = w2.trace := by
  simp only [World.withoutStatus, World.mk.injEq, Cluster.mk.injEq] at h
  exact ⟨h.1.1, h.1.2, h.2⟩

theorem withoutStatus_of_parts (w1 w2 : World)
    (hm : w1.cluster.mysqls.map MySQL.withoutStatus = w2.cluster.mysqls.map MySQL.withoutStatus)
    (ho : w1.cluster.objects = w2.cluster.objects) (ht : w1.trace = w2.trace) :
    w1.withoutStatus = w2.withoutStatus := by
  simp only [World.withoutStatus, hm, ho, ht]

theorem ensure_sameButStatus (r : MySQLReconciler) (obj : Object) (w1 w2 : World)
    (next : World → Outcome × World) (h : w1.withoutStatus = w2.withoutStatus)
    (hnext : ∀ a b : World, a.withoutStatus = b.withoutStatus → SameButStatus (next a) (next b)) :
    SameButStatus (ensure r obj w1 next) (ensure r obj w2 next) := by
  obtain ⟨hm, ho, ht⟩ := withoutStatus_parts w1 w2 h
  obtain ⟨⟨my1, o1⟩, t1⟩ := w1
  obtain ⟨⟨my2, o2⟩, t2⟩ := w2
  simp only at hm ho ht
  subst ho ht
  have hw : ∀ (os : List Object) (t : List Call),
      ({ cluster := { mysqls := my1, objects := os }, trace := t } : World).withoutStatus
        = ({ cluster := { mysqls := my2, objects := os }, trace := t } : World).withoutStatus :=
    fun os t => withoutStatus_of_parts _ _ hm rfl rfl
  unfold ensure MySQLReconciler.Get MySQLReconciler.Create Cluster.lookup
  simp only
  cases hcg : r.Client (Call.get obj.kind obj.meta.Namespace obj.meta.Name) with
  | some err =>
    by_cases hnf : IsNotFound err = true
    · cases hcc : r.Client (Call.create obj) with
      | some e =>
        simp only [hnf, if_true]
        exact ⟨rfl, hw _ _⟩
      | none =>
        cases hlk : o1.find? (Object.hasKey obj.kind obj.meta.Namespace obj.meta.Name) with
        | some x =>
          simp only [hnf, if_true, hlk]
          exact ⟨rfl, hw _ _⟩
        | none =>
          simp only [hnf, if_true, hlk]
          exact hnext _ _ (hw _ _)
    · simp only [hnf]
      exact hnext _ _ (hw _ _)
  | none =>
    cases hlk : o1.find? (Object.hasKey obj.kind obj.meta.Namespace obj.meta.Name) with
    | some x =>
      simp only [hlk]
      exact hnext _ _ (hw _ _)
    | none =>
      cases hcc : r.Client (Call.create obj) with
      | some e =>
        simp only [IsNotFound, if_true, hlk]
        exact ⟨rfl, hw _ _⟩
      | none =>
        simp only [IsNotFound, if_true, hlk]
        exact hnext _ _ (hw _ _)

theorem withoutStatus_setStatus (m : MySQL) (st : MySQLStatus) :
    ({ m with Status := st } : MySQL).withoutStatus = m.withoutStatus := rfl

theorem eq_setStatus_of_withoutStatus (m1 m2 : MySQL)
    (h : m1.withoutStatus = m2.withoutStatus) : m2 = { m1 with Status := m2.Status } := by
  obtain ⟨meta1, spec1, st1⟩ := m1
  obtain ⟨meta2, spec2, st2⟩ := m2
  simp only [MySQL.withoutStatus, MySQL.mk.injEq] at h
  obtain ⟨hmeta, hspec, -⟩ := h
  subst hmeta hspec
  rfl

theorem find_withoutStatus (l1 l2 : List MySQL) (ns name : String)
    (h : l1.map MySQL.withoutStatus = l2.map MySQL.withoutStatus) :
    (l1.find? (fun m => m.Namespace == ns && m.Name == name)).map MySQL.withoutStatus
      = (l2.find? (fun m => m.Namespace == ns && m.Name == name)).map MySQL.withoutStatus := by
  have hfun : ((fun m : MySQL => m.Namespace == ns && m.Name == name) ∘ MySQL.withoutStatus)
      = fun m : MySQL => m.Namespace == ns && m.Name == name := rfl
  have h1 := List.find?_map (p := fun m : MySQL => m.Namespace == ns && m.Name == name)
    MySQL.withoutStatus l1
  have h2 := List.find?_map (p := fun m : MySQL => m.Namespace == ns && m.Name == name)
    MySQL.withoutStatus l2
  rw [hfun] at h1 h2
  rw [← h1, ← h2, h]

theorem map_setStatus_withoutStatus (l : List MySQL) (m : MySQL) :
    (l.map (fun x =>
        if x.Namespace == m.Namespace && x.Name == m.Name then { x with Status := m.Status }
        else x)).map MySQL.withoutStatus = l.map MySQL.withoutStatus := by
  rw [List.map_map]
  apply List.map_congr_left
  intro x _
  simp only [Function.comp]
  split <;> rfl

theorem reconcileStatus_sameButStatus (r : MySQLReconciler) (m : MySQL) (w1 w2 : World)
    (h : w1.withoutStatus = w2.withoutStatus) :
    SameButStatus (reconcileStatus r m w1) (reconcileStatus r m w2) := by
  obtain ⟨hm, ho, ht⟩ := withoutStatus_parts w1 w2 h
  have hfind := find_withoutStatus w1.cluster.mysqls w2.cluster.mysqls m.Namespace m.Name hm
  cases hc : r.Client (Call.statusUpdate m.running) with
  | some e =>
    have e1 : ∀ w : World, reconcileStatus r m w = (.returned Result.empty (some e),
        { cluster := w.cluster, trace := w.trace ++ [Call.statusUpdate m.running] }) := by
      intro w
      unfold reconcileStatus MySQLReconciler.StatusUpdate
      simp only [MySQL.running] at hc
      simp only [hc]
      rfl
    rw [e1 w1, e1 w2]
    exact ⟨rfl, withoutStatus_of_parts _ _ hm ho (by simp only [ht])⟩
  | none =>
    have e0 : ∀ w : World, w.cluster.lookupMySQL m.Namespace m.Name = none →
        reconcileStatus r m w = (.returned Result.empty (some (.notFound m.Name)),
          { cluster := w.cluster, trace := w.trace ++ [Call.statusUpdate m.running] }) := by
      intro w hl
      unfold reconcileStatus MySQLReconciler.StatusUpdate
      simp only [MySQL.running] at hc
      simp only [hc, hl]
      rfl
    cases h1 : w1.cluster.lookupMySQL m.Namespace m.Name with
    | none =>
      cases h2 : w2.cluster.lookupMySQL m.Namespace m.Name with
      | none =>
        rw [e0 w1 h1, e0 w2 h2]
        exact ⟨rfl, withoutStatus_of_parts _ _ hm ho (by simp only [ht])⟩
      | some y =>
        unfold Cluster.lookupMySQL at h1 h2
        rw [h1, h2] at hfind
        cases hfind
    | some x =>
      cases h2 : w2.cluster.lookupMySQL m.Namespace m.Name with
      | none =>
        unfold Cluster.lookupMySQL at h1 h2
        rw [h1, h2] at hfind
        cases hfind
      | some y =>
        rw [reconcileStatus_ok r m w1 hc (by rw [h1]; rfl),
          reconcileStatus_ok r m w2 hc (by rw [h2]; rfl)]
        refine ⟨rfl, withoutStatus_of_parts _ _ ?_ ho (by simp only [ht])⟩
        show ((w1.cluster.withStatus m.running).mysqls).map MySQL.withoutStatus
          = ((w2.cluster.withStatus m.running).mysqls).map MySQL.withoutStatus
        unfold Cluster.withStatus
        rw [map_setStatus_withoutStatus, map_setStatus_withoutStatus, hm]

theorem reconcileSecret_no_scheme (r : MySQLReconciler) (m : MySQL) (s : String) (w : World)
    (hs : r.Scheme.MySQL = none) :
    reconcileSecret r m s w =
      (.returned Result.empty (some (.other "no kind is registered for the type MySQL")), w) := by
  unfold reconcileSecret
  simp only [secretForMySQL, SetControllerReference_built, hs]

theorem reconcilePVC_no_scheme (r : MySQLReconciler) (m : MySQL) (s : String) (w : World)
    (pvc : PersistentVolumeClaim) (hp : pvcForMySQL r.ParseQuantity m s = .value pvc)
    (hs : r.Scheme.MySQL = none) :
    reconcilePVC r m s w =
      (.returned Result.empty (some (.other "no kind is registered for the type MySQL")), w) := by
  have hmeta := pvcForMySQL_meta _ _ _ _ hp
  unfold reconcilePVC
  simp only [hp, hmeta, SetControllerReference_built, hs]

theorem reconcileDeployment_no_scheme (r : MySQLReconciler) (m : MySQL) (s : String) (w : World)
    (hs : r.Scheme.MySQL = none) :
    reconcileDeployment r m s w =
      (.returned Result.empty (some (.other "no kind is registered for the type MySQL")), w) := by
  unfold reconcileDeployment
  simp only [deploymentForMySQL, SetControllerReference_built, hs]

theorem reconcileService_no_scheme (r : MySQLReconciler) (m : MySQL) (s : String) (w : World)
    (hs : r.Scheme.MySQL = none) :
    reconcileService r m s w =
      (.returned Result.empty (some (.other "no kind is registered for the type MySQL")), w) := by
  unfold reconcileService
  simp only [serviceForMySQL, SetControllerReference_built, hs]

theorem reconcileService_sameButStatus (r : MySQLReconciler) (m : MySQL) (s : String)
    (w1 w2 : World) (h : w1.withoutStatus = w2.withoutStatus) :
    SameButStatus (reconcileService r m s w1) (reconcileService r m s w2) := by
  cases hs : r.Scheme.MySQL with
  | none =>
    rw [reconcileService_no_scheme r m s w1 hs, reconcileService_no_scheme r m s w2 hs]
    exact ⟨rfl, h⟩
  | some gvk =>
    rw [reconcileService_eq r m s w1 gvk hs, reconcileService_eq r m s w2 gvk hs]
    exact ensure_sameButStatus r _ w1 w2 _ h (fun a b hab => reconcileStatus_sameButStatus r m a b hab)

theorem reconcileDeployment_sameButStatus (r : MySQLReconciler) (m : MySQL) (s : String)
    (w1 w2 : World) (h : w1.withoutStatus = w2.withoutStatus) :
    SameButStatus (reconcileDeployment r m s w1) (reconcileDeployment r m s w2) := by
  cases hs : r.Scheme.MySQL with
  | none =>
    rw [reconcileDeployment_no_scheme r m s w1 hs, reconcileDeployment_no_scheme r m s w2 hs]
    exact ⟨rfl, h⟩
  | some gvk =>
    rw [reconcileDeployment_eq r m s w1 gvk hs, reconcileDeployment_eq r m s w2 gvk hs]
    exact ensure_sameButStatus r _ w1 w2 _ h
      (fun a b hab => reconcileService_sameButStatus r m s a b hab)

theorem reconcilePVC_sameButStatus (r : MySQLReconciler) (m : MySQL) (s : String)
    (w1 w2 : World) (h : w1.withoutStatus = w2.withoutStatus) :
    SameButStatus (reconcilePVC r m s w1) (reconcilePVC r m s w2) := by
  cases hp : pvcForMySQL r.ParseQuantity m s with
  | panics msg =>
    rw [reconcilePVC_panics r m s w1 msg hp, reconcilePVC_panics r m s w2 msg hp]
    exact ⟨rfl, h⟩
  | value pvc =>
    cases hs : r.Scheme.MySQL with
    | none =>
      rw [reconcilePVC_no_scheme r m s w1 pvc hp hs, reconcilePVC_no_scheme r m s w2 pvc hp hs]
      exact ⟨rfl, h⟩
    | some gvk =>
      rw [reconcilePVC_eq r m s w1 gvk hs pvc hp, reconcilePVC_eq r m s w2 gvk hs pvc hp]
      exact ensure_sameButStatus r _ w1 w2 _ h
        (fun a b hab => reconcileDeployment_sameButStatus r m s a b hab)

theorem reconcileSecret_sameButStatus (r : MySQLReconciler) (m : MySQL) (s : String)
    (w1 w2 : World) (h : w1.withoutStatus = w2.withoutStatus) :
    SameButStatus (reconcileSecret r m s w1) (reconcileSecret r m s w2) := by
  cases hs : r.Scheme.MySQL with
  | none =>
    rw [reconcileSecret_no_scheme r m s w1 hs, reconcileSecret_no_scheme r m s w2 hs]
    exact ⟨rfl, h⟩
  | some gvk =>
    rw [reconcileSecret_eq r m s w1 gvk hs, reconcileSecret_eq r m s w2 gvk hs]
    exact ensure_sameButStatus r _ w1 w2 _ h
      (fun a b hab => reconcilePVC_sameButStatus r m s a b hab)

theorem reconcileSecret_setStatus (r : MySQLReconciler) (m : MySQL) (st : MySQLStatus)
    (s : String) (w : World) :
    reconcileSecret r { m with Status := st } s w = reconcileSecret r m s w := rfl

theorem Reconcile_sameButStatus (r : MySQLReconciler) (req : Request) (w1 w2 : World)
    (h : w1.withoutStatus = w2.withoutStatus) :
    SameButStatus (Reconcile r req w1) (Reconcile r req w2) := by
  obtain ⟨hm, ho, ht⟩ := withoutStatus_parts w1 w2 h
  have hfind := find_withoutStatus w1.cluster.mysqls w2.cluster.mysqls req.Namespace req.Name hm
  have hlog : ({ cluster := w1.cluster
                 trace := w1.trace ++ [Call.getMySQL req.Namespace req.Name] } : World).withoutStatus
      = ({ cluster := w2.cluster
           trace := w2.trace ++ [Call.getMySQL req.Namespace req.Name] } : World).withoutStatus :=
    withoutStatus_of_parts _ _ hm ho (by simp only [ht])
  cases hc : r.Client (Call.getMySQL req.Namespace req.Name) with
  | some err =>
    have e1 : ∀ w : World, Reconcile r req w =
        (if IsNotFound err then .returned Result.empty none
          else .returned Result.empty (some err),
          { cluster := w.cluster, trace := w.trace ++ [Call.getMySQL req.Namespace req.Name] }) := by
      intro w
      unfold Reconcile MySQLReconciler.GetMySQL
      by_cases hnf : IsNotFound err = true <;> simp [hc, hnf]
    rw [e1 w1, e1 w2]
    exact ⟨rfl, hlog⟩
  | none =>
    have e0 : ∀ w : World, w.cluster.lookupMySQL req.Namespace req.Name = none →
        Reconcile r req w = (.returned Result.empty none,
          { cluster := w.cluster, trace := w.trace ++ [Call.getMySQL req.Namespace req.Name] }) := by
      intro w hl
      simp [Reconcile, MySQLReconciler.GetMySQL, hc, hl, IsNotFound]
    cases h1 : w1.cluster.lookupMySQL req.Namespace req.Name with
    | none =>
      cases h2 : w2.cluster.lookupMySQL req.Namespace req.Name with
      | none =>
        rw [e0 w1 h1, e0 w2 h2]
        exact ⟨rfl, hlog⟩
      | some y =>
        unfold Cluster.lookupMySQL at h1 h2
        rw [h1, h2] at hfind
        cases hfind
    | some x =>
      cases h2 : w2.cluster.lookupMySQL req.Namespace req.Name with
      | none =>
        unfold Cluster.lookupMySQL at h1 h2
        rw [h1, h2] at hfind
        cases hfind
      | some y =>
        unfold Cluster.lookupMySQL at h1 h2
        rw [h1, h2] at hfind
        have hxy : x.withoutStatus = y.withoutStatus := Option.some.inj hfind
        have hy := eq_setStatus_of_withoutStatus x y hxy
        rw [Reconcile_fetched r req w1 x hc h1, Reconcile_fetched r req w2 y hc h2, hy]
        exact reconcileSecret_sameButStatus r x _ _ _ hlog

/-! ## Theorems: status and names -/

/-- C15: two passes of the same reconciler (same outcomes of the calls) for the
same request, on two worlds that hold the same objects and trace and the same
MySQL resources up to their statuses, return the same result, issue the same
calls (the same lookups, the same creates with the same objects, the same
status update with the same status) and leave stores that again differ in
stored statuses at most.  Each builder gives the same object for resources
with the same Spec and namespace and the same name argument. -/
theorem Reconcile_ignores_status (r : MySQLReconciler) (req : Request) (w1 w2 : World)
    (h : w1.withoutStatus = w2.withoutStatus) :
    (Reconcile r req w1).1 = (Reconcile r req w2).1 ∧
      (Reconcile r req w1).2.trace = (Reconcile r req w2).2.trace ∧
      (Reconcile r req w1).2.cluster.objects = (Reconcile r req w2).2.cluster.objects ∧
      (Reconcile r req w1).2.withoutStatus = (Reconcile r req w2).2.withoutStatus ∧
      ∀ (m1 m2 : MySQL) (c : String), m1.Spec = m2.Spec → m1.Namespace = m2.Namespace →
        secretForMySQL m1 c = secretForMySQL m2 c ∧
          pvcForMySQL r.ParseQuantity m1 c = pvcForMySQL r.ParseQuantity m2 c ∧
          deploymentForMySQL m1 c = deploymentForMySQL m2 c ∧
          serviceForMySQL m1 c = serviceForMySQL m2 c := by
  obtain ⟨hout, hw⟩ := Reconcile_sameButStatus r req w1 w2 h
  obtain ⟨-, ho, ht⟩ := withoutStatus_parts _ _ hw
  refine ⟨hout, ht, ho, hw, ?_⟩
  intro m1 m2 c hspec hns
  refine ⟨?_, ?_, ?_, ?_⟩
  · simp only [secretForMySQL, hspec, hns]
  · simp only [pvcForMySQL, hspec, hns]
  · simp only [deploymentForMySQL, hspec, hns]
  · simp only [serviceForMySQL, hns]

theorem Reconcile_ignores_status_witness :
    (Reconcile sampleReconciler sampleRequest
        { cluster := { mysqls := [sampleMySQL], objects := [] }, trace := [] }).2.trace
      = (Reconcile sampleReconciler sampleRequest
        { cluster := { mysqls := [sampleMySQL.running], objects := [] }, trace := [] }).2.trace :=
  (Reconcile_ignores_status sampleReconciler sampleRequest
    { cluster := { mysqls := [sampleMySQL], objects := [] }, trace := [] }
    { cluster := { mysqls := [sampleMySQL.running], objects := [] }, trace := [] } rfl).2.1

/-- C17: sanitizeName is not injective on valid resource names: `a.b` and `a-b`
are distinct valid names with the same sanitized name, so the four dependents
built for two resources with these names in one namespace have the same
kinds, namespaces and names.  After a pass for the first that returns no
error, a pass for the second returns no error, issues the fetch, four lookups
and the status update and no create, and the second resource is stored with
status Running and ready, while each of the four dependents in the store has
the controller reference to the first resource as its only owner reference. -/
theorem sanitizeName_collision :
    ("a.b" ≠ "a-b" ∧ isDNS1123Subdomain "a.b" = true ∧ isDNS1123Subdomain "a-b" = true ∧
        sanitizeName "a.b" = sanitizeName "a-b") ∧
      ([Object.secret (secretForMySQL dottedMySQL (sanitizeName dottedMySQL.Name)),
          Object.deployment (deploymentForMySQL dottedMySQL (sanitizeName dottedMySQL.Name)),
          Object.service (serviceForMySQL dottedMySQL (sanitizeName dottedMySQL.Name))].map
            (fun o => (o.kind, o.meta.Namespace, o.meta.Name))
        = [Object.secret (secretForMySQL dashedMySQL (sanitizeName dashedMySQL.Name)),
          Object.deployment (deploymentForMySQL dashedMySQL (sanitizeName dashedMySQL.Name)),
          Object.service (serviceForMySQL dashedMySQL (sanitizeName dashedMySQL.Name))].map
            (fun o => (o.kind, o.meta.Namespace, o.meta.Name)) ∧
        (pvcForMySQL sampleParse dottedMySQL (sanitizeName dottedMySQL.Name)
            = .value { toObjectMeta := objectMeta "a-b-pvc" "ns1"
                       Spec := { AccessModes := [PersistentVolumeAccessMode.ReadWriteOnce]
                                 Resources := { Requests := [("storage", { text := "10Gi" })] } } } ∧
          pvcForMySQL sampleParse dashedMySQL (sanitizeName dashedMySQL.Name)
            = .value { toObjectMeta := objectMeta "a-b-pvc" "ns1"
                       Spec := { AccessModes := [PersistentVolumeAccessMode.ReadWriteOnce]
                                 Resources := { Requests := [("storage", { text := "20Gi" })] } } })) ∧
      (Reconcile sampleReconciler { Namespace := "ns1", Name := "a.b" }
          { cluster := twinCluster, trace := [] }).1 = .returned Result.empty none ∧
      (Reconcile sampleReconciler { Namespace := "ns1", Name := "a-b" }
          { cluster := afterDottedCluster, trace := [] }).1 = .returned Result.empty none ∧
      (Reconcile sampleReconciler { Namespace := "ns1", Name := "a-b" }
          { cluster := afterDottedCluster, trace := [] }).2.trace
        = [Call.getMySQL "ns1" "a-b", Call.get Kind.Secret "ns1" "a-b-secret",
            Call.get Kind.PersistentVolumeClaim "ns1" "a-b-pvc",
            Call.get Kind.Deployment "ns1" "a-b", Call.get Kind.Service "ns1" "a-b-service",
            Call.statusUpdate dashedMySQL.running] ∧
      ((Reconcile sampleReconciler { Namespace := "ns1", Name := "a-b" }
          { cluster := afterDottedCluster, trace := [] }).2.cluster.lookupMySQL "ns1" "a-b").map
            (fun m => m.Status)
        = some { Phase := "Running", Message := "MySQL instance is running", Ready := true } ∧
      (Reconcile sampleReconciler { Namespace := "ns1", Name := "a-b" }
          { cluster := afterDottedCluster, trace := [] }).2.cluster.objects.map
            (fun o => (o.kind, o.meta.Name, o.meta.OwnerReferences.map (fun ref => (ref.Name, ref.UID))))
        = [(Kind.Secret, "a-b-secret", [("a.b", "uid-dotted")]),
            (Kind.PersistentVolumeClaim, "a-b-pvc", [("a.b", "uid-dotted")]),
            (Kind.Deployment, "a-b", [("a.b", "uid-dotted")]),
            (Kind.Service, "a-b-service", [("a.b", "uid-dotted")])] := by
  refine ⟨by decide, ⟨by decide, by decide, by decide⟩, by decide, by decide, by decide, by decide,
    by decide⟩

end MySQLOperator
